import Mathlib

/-!
# GainController2: the AGC2 per-frame orchestrator

A shallow embedding of `modules/audio_processing/gain_controller2.cc` and
theorems about it.  The orchestrator owns an optional adaptive digital gain
controller, an optional input volume controller, an optional voice activity
detector, a fixed gain applier and a limiter.  The sub-components are not part
of the translated file; their behaviour enters through the record
`Collaborators`.  Every operation returns the list of collaborator calls it
made, in program order, next to its result, so that statements about call
counts and call order are statements about that list.
-/

namespace webrtc

/-! ## Single-precision values -/

/-- Values of the C++ type `float`: not-a-number, the two infinities and the
finite values.  Finite values are carried as rationals, a superset of the
finite singles on which the IEEE comparisons are exact. -/
inductive F32 where
  | nan : F32
  | negInf : F32
  | posInf : F32
  | fin (q : ℚ) : F32
  deriving DecidableEq

namespace F32

/-- The C++ operator `<` on floats: false as soon as one side is NaN. -/
def lt : F32 → F32 → Bool
  | nan, _ => false
  | _, nan => false
  | _, negInf => false
  | negInf, _ => true
  | posInf, _ => false
  | fin _, posInf => true
  | fin a, fin b => decide (a < b)

/-- The C++ operator `<=` on floats: false as soon as one side is NaN. -/
def le : F32 → F32 → Bool
  | nan, _ => false
  | _, nan => false
  | negInf, _ => true
  | _, posInf => true
  | posInf, _ => false
  | fin _, negInf => false
  | fin a, fin b => decide (a ≤ b)

/-- The C++ operator `>` on floats. -/
def gt (a b : F32) : Bool := lt b a

/-- The C++ operator `>=` on floats. -/
def ge (a b : F32) : Bool := le b a

/-- The C++ operator `==` on floats: NaN equals nothing, itself included. -/
def eq : F32 → F32 → Bool
  | nan, _ => false
  | _, nan => false
  | a, b => decide (a = b)

/-- The C++ operator `!=` on floats: the negation of `==`, so it is true as
soon as one side is NaN. -/
def ne (a b : F32) : Bool := !(eq a b)

/-- Whether a value is NaN. -/
def isNan : F32 → Bool
  | nan => true
  | _ => false

/-- The C++ operator `*` on floats with the IEEE special cases.  The product
of two finite values is taken exactly: its rounding to single precision is not
modelled. -/
def mul : F32 → F32 → F32
  | nan, _ => nan
  | _, nan => nan
  | fin a, fin b => fin (mkRat (a.num * b.num) (a.den * b.den))
  | fin a, posInf => if a = 0 then nan else if 0 < a then posInf else negInf
  | fin a, negInf => if a = 0 then nan else if 0 < a then negInf else posInf
  | posInf, fin b => if b = 0 then nan else if 0 < b then posInf else negInf
  | negInf, fin b => if b = 0 then nan else if 0 < b then negInf else posInf
  | posInf, posInf => posInf
  | negInf, negInf => posInf
  | posInf, negInf => negInf
  | negInf, posInf => negInf

end F32

/-! ## Configuration and its validation -/

/-- The `fixed_digital` part of `AudioProcessing::Config::GainController2`. -/
structure FixedDigital where
  gain_db : F32
  deriving DecidableEq

/-- The `adaptive_digital` part of `AudioProcessing::Config::GainController2`. -/
structure AdaptiveDigital where
  enabled : Bool
  headroom_db : F32
  max_gain_db : F32
  initial_gain_db : F32
  max_gain_change_db_per_second : F32
  max_output_noise_level_dbfs : F32
  vad_reset_period_ms : Int
  deriving DecidableEq

/-- The `input_volume_controller` part of
`AudioProcessing::Config::GainController2`. -/
structure InputVolumeControllerSwitch where
  enabled : Bool
  deriving DecidableEq

/-- The configuration type `AudioProcessing::Config::GainController2`
(`Agc2Config` in the source), with the fields the orchestrator reads. -/
structure Agc2Config where
  fixed_digital : FixedDigital
  adaptive_digital : AdaptiveDigital
  input_volume_controller : InputVolumeControllerSwitch
  deriving DecidableEq

/-- `GainController2::Validate`. -/
def Validate (config : Agc2Config) : Bool :=
  let fixed := config.fixed_digital
  let adaptive := config.adaptive_digital
  F32.ge fixed.gain_db (F32.fin 0) && F32.lt fixed.gain_db (F32.fin 50) &&
  F32.ge adaptive.headroom_db (F32.fin 0) && F32.gt adaptive.max_gain_db (F32.fin 0) &&
  F32.ge adaptive.initial_gain_db (F32.fin 0) &&
  F32.gt adaptive.max_gain_change_db_per_second (F32.fin 0) &&
  F32.le adaptive.max_output_noise_level_dbfs (F32.fin 0)

/-! ## The environment of the orchestrator -/

/-- `AvailableCpuFeatures` (agc2/cpu_features.h): the three vector instruction
sets the AGC2 code has specialised paths for. -/
structure AvailableCpuFeatures where
  sse2 : Bool
  avx2 : Bool
  neon : Bool
  deriving DecidableEq

/-- `InterpolatedGainCurve::Stats`: the four look-up counters that the
periodic log line prints. -/
structure GainCurveStats where
  look_ups_identity_region : Nat
  look_ups_knee_region : Nat
  look_ups_limiter_region : Nat
  look_ups_saturation_region : Nat
  deriving DecidableEq

/-- Everything `gain_controller2.cc` uses and does not define: the state types
of the sub-components with their member functions (as state transformers), the
CPU feature probe, the field trial registry and the rounded decimal power
behind `DbToRatio`.  `Frame` stands for the samples of one 10 ms block, the
contents of the `AudioBuffer` that `AudioFrameView<float>` gives access to:
`channels` reads the samples, channel by channel, and `mapSamples` rewrites
every sample of every channel in place.  A frame is nothing but its samples
(`channels_injective`), and reading after rewriting gives the rewritten samples
(`channels_mapSamples`). -/
structure Collaborators where
  Frame : Type
  InputVolumeControllerConfig : Type
  AdaptiveDigitalGainController : Type
  InputVolumeController : Type
  Limiter : Type
  VoiceActivityDetectorWrapper : Type
  GetAvailableCpuFeatures : AvailableCpuFeatures
  IsEnabled : String → Bool
  pow10 : ℚ → ℚ
  adaptive_new : AdaptiveDigital → Int → Int → AdaptiveDigitalGainController
  adaptive_HandleInputGainChange :
    AdaptiveDigitalGainController → AdaptiveDigitalGainController
  adaptive_GetSpeechLevelDbfsIfConfident : AdaptiveDigitalGainController → Option F32
  adaptive_Process :
    AdaptiveDigitalGainController → Frame → F32 → F32 →
      AdaptiveDigitalGainController × Frame
  ivc_new : Int → InputVolumeControllerConfig → InputVolumeController
  ivc_Initialize : InputVolumeController → InputVolumeController
  ivc_HandleCaptureOutputUsedChange : InputVolumeController → Bool → InputVolumeController
  ivc_set_stream_analog_level : InputVolumeController → Int → InputVolumeController
  ivc_AnalyzePreProcess : InputVolumeController → Frame → InputVolumeController
  ivc_Process : InputVolumeController → F32 → Option F32 → InputVolumeController
  ivc_recommended_analog_level : InputVolumeController → Int
  limiter_new : Int → Limiter
  limiter_Reset : Limiter → Limiter
  limiter_Process : Limiter → Frame → Limiter × Frame
  limiter_LastAudioLevel : Limiter → F32
  limiter_GetGainCurveStats : Limiter → GainCurveStats
  vad_new : Int → AvailableCpuFeatures → Int → VoiceActivityDetectorWrapper
  vad_Analyze : VoiceActivityDetectorWrapper → Frame → VoiceActivityDetectorWrapper × F32
  channels : Frame → List (List F32)
  mapSamples : (F32 → F32) → Frame → Frame
  channels_injective : ∀ a b : Frame, channels a = channels b → a = b
  channels_mapSamples : ∀ (g : F32 → F32) (frame : Frame),
    channels (mapSamples g frame) = (channels frame).map (List.map g)

/-- Modelled from the spec: `DbToRatio` (common_audio/include/audio_util.h is
not part of the translated file), `factor = 10^(db/20)` evaluated in single
precision.  NaN propagates, `+∞` maps to `+∞` and `-∞` to `0`; a finite
argument of 771 dB or more overflows to `+∞`, because `10^(771/20)` is above
`3.5 * 10^38` and the largest finite single is below `3.41 * 10^38`; for the
remaining arguments the rounded power is `pow10`. -/
def DbToRatio (pow10 : ℚ → ℚ) : F32 → F32
  | F32.nan => F32.nan
  | F32.posInf => F32.posInf
  | F32.negInf => F32.fin 0
  | F32.fin q => if 771 ≤ q then F32.posInf else F32.fin (pow10 q)

/-- Modelled from the spec: the value of `DbToRatio`
(common_audio/include/audio_util.h is not part of the translated file),
`factor = 10^(db/20)`, as a condition on a rational `factor` in single
precision: a relative error of at most `2^-20`, which covers the rounding of
the exponent `db/20` and of the power for the gains that `Validate` accepts.
With `db = n/d` in lowest terms, `factor` is positive and
`(factor * (1 - 2^-20))^(20 d) ≤ 10^n ≤ (factor * (1 + 2^-20))^(20 d)`; for a
negative `n` the power of ten stands on the other side. -/
def IsDbRatio (db factor : ℚ) : Prop :=
  0 < factor ∧
  (factor * (1 - 1 / 2 ^ 20)) ^ (20 * db.den) * 10 ^ (-db.num).toNat ≤ 10 ^ db.num.toNat ∧
  10 ^ db.num.toNat ≤ (factor * (1 + 1 / 2 ^ 20)) ^ (20 * db.den) * 10 ^ (-db.num).toNat

instance (db factor : ℚ) : Decidable (IsDbRatio db factor) :=
  inferInstanceAs (Decidable (_ ∧ _ ∧ _))

/-- The assertions of the file, one name per `RTC_DCHECK` line, and the failed
access `value()` of an empty optional. -/
inductive Fatal where
  | validate_config
  | applied_input_volume_ge_0
  | applied_input_volume_le_255
  | speech_probability_ge_0
  | speech_probability_le_1
  | adaptive_digital_controller_present
  | speech_probability_has_value_for_input_volume_controller
  | speech_probability_has_value_for_adaptive_digital_controller
  | bad_optional_access
  deriving DecidableEq

/-- A call that the orchestrator makes on one of the objects it owns (member
functions of the sub-components, of the data dumper) or a line it writes to
the log, with the arguments passed. -/
inductive Call (C : Collaborators) where
  | dumper_InitiateNewSetOfRecordings
  | dumper_DumpRaw_applied_input_volume_changed (value : Bool)
  | dumper_DumpRaw_speech_probability (value : F32)
  | ivc_Initialize
  | ivc_HandleCaptureOutputUsedChange (capture_output_used : Bool)
  | ivc_set_stream_analog_level (level : Int)
  | ivc_AnalyzePreProcess (audio_buffer : C.Frame)
  | ivc_recommended_analog_level
  | ivc_Process (speech_probability : F32) (speech_level : Option F32)
  | applier_GetGainFactor
  | applier_SetGainFactor (gain_factor : F32)
  | applier_ApplyGain (frame : C.Frame)
  | limiter_Reset
  | limiter_LastAudioLevel
  | limiter_Process (frame : C.Frame)
  | limiter_GetGainCurveStats
  | adaptive_HandleInputGainChange
  | adaptive_GetSpeechLevelDbfsIfConfident
  | adaptive_Process (frame : C.Frame) (speech_probability : F32) (limiter_level : F32)
  | vad_Analyze (frame : C.Frame)
  | log_limiter_stats (stats : GainCurveStats)

/-- The member function a call goes to, without the arguments. -/
inductive CallKind where
  | dumper_InitiateNewSetOfRecordings
  | dumper_DumpRaw_applied_input_volume_changed
  | dumper_DumpRaw_speech_probability
  | ivc_Initialize
  | ivc_HandleCaptureOutputUsedChange
  | ivc_set_stream_analog_level
  | ivc_AnalyzePreProcess
  | ivc_recommended_analog_level
  | ivc_Process
  | applier_GetGainFactor
  | applier_SetGainFactor
  | applier_ApplyGain
  | limiter_Reset
  | limiter_LastAudioLevel
  | limiter_Process
  | limiter_GetGainCurveStats
  | adaptive_HandleInputGainChange
  | adaptive_GetSpeechLevelDbfsIfConfident
  | adaptive_Process
  | vad_Analyze
  | log_limiter_stats
  deriving DecidableEq

/-- The member function of a call. -/
def Call.kind {C : Collaborators} : Call C → CallKind
  | Call.dumper_InitiateNewSetOfRecordings => CallKind.dumper_InitiateNewSetOfRecordings
  | Call.dumper_DumpRaw_applied_input_volume_changed _ =>
    CallKind.dumper_DumpRaw_applied_input_volume_changed
  | Call.dumper_DumpRaw_speech_probability _ => CallKind.dumper_DumpRaw_speech_probability
  | Call.ivc_Initialize => CallKind.ivc_Initialize
  | Call.ivc_HandleCaptureOutputUsedChange _ => CallKind.ivc_HandleCaptureOutputUsedChange
  | Call.ivc_set_stream_analog_level _ => CallKind.ivc_set_stream_analog_level
  | Call.ivc_AnalyzePreProcess _ => CallKind.ivc_AnalyzePreProcess
  | Call.ivc_recommended_analog_level => CallKind.ivc_recommended_analog_level
  | Call.ivc_Process _ _ => CallKind.ivc_Process
  | Call.applier_GetGainFactor => CallKind.applier_GetGainFactor
  | Call.applier_SetGainFactor _ => CallKind.applier_SetGainFactor
  | Call.applier_ApplyGain _ => CallKind.applier_ApplyGain
  | Call.limiter_Reset => CallKind.limiter_Reset
  | Call.limiter_LastAudioLevel => CallKind.limiter_LastAudioLevel
  | Call.limiter_Process _ => CallKind.limiter_Process
  | Call.limiter_GetGainCurveStats => CallKind.limiter_GetGainCurveStats
  | Call.adaptive_HandleInputGainChange => CallKind.adaptive_HandleInputGainChange
  | Call.adaptive_GetSpeechLevelDbfsIfConfident =>
    CallKind.adaptive_GetSpeechLevelDbfsIfConfident
  | Call.adaptive_Process _ _ _ => CallKind.adaptive_Process
  | Call.vad_Analyze _ => CallKind.vad_Analyze
  | Call.log_limiter_stats _ => CallKind.log_limiter_stats

/-- The run of a member function: the calls made, oldest first, and either the
value returned or the assertion that stopped the run.  A run that is stopped
keeps the calls made before the assertion. -/
structure Exec (C : Collaborators) (α : Type) where
  calls : List (Call C)
  result : Except Fatal α

namespace Exec

variable {C : Collaborators} {α β : Type}

/-- A run that makes no call and returns `a`. -/
def ret (a : α) : Exec C α := ⟨[], Except.ok a⟩

/-- Sequencing: the second run starts where the first returned; an assertion
in the first run stops both. -/
def andThen (m : Exec C α) (f : α → Exec C β) : Exec C β :=
  match m.result with
  | Except.error e => ⟨m.calls, Except.error e⟩
  | Except.ok a => ⟨m.calls ++ (f a).calls, (f a).result⟩

instance : Monad (Exec C) where
  pure := ret
  bind := andThen

/-- Whether the run returned. -/
def completes (m : Exec C α) : Bool :=
  match m.result with
  | Except.ok _ => true
  | Except.error _ => false

/-- The value returned by the run, or `fallback` when an assertion stopped it. -/
def valueD (m : Exec C α) (fallback : α) : α :=
  match m.result with
  | Except.ok a => a
  | Except.error _ => fallback

/-- The member functions called during the run, oldest first. -/
def kinds (m : Exec C α) : List CallKind := m.calls.map Call.kind

end Exec

/-- Records one call. -/
def call {C : Collaborators} (c : Call C) : Exec C Unit := ⟨[c], Except.ok ()⟩

/-- Modelled from the spec: `RTC_DCHECK` and its comparison forms
(rtc_base/checks.h is not part of the translated file) are fatal assertions: a
false condition stops the run at once. -/
def RTC_DCHECK {C : Collaborators} (condition : Bool) (failure : Fatal) : Exec C Unit :=
  ⟨[], if condition then Except.ok () else Except.error failure⟩

/-- Modelled from the spec: the fixed gain applier (agc2/gain_applier.h is not
part of the translated file) holds a single linear gain factor and is stateful
only in it. -/
structure GainApplier where
  hard_clip_samples : Bool
  current_gain_factor : F32
  deriving DecidableEq

/-- `GainApplier::GetGainFactor`. -/
def GainApplier.GetGainFactor (g : GainApplier) : F32 := g.current_gain_factor

/-- `GainApplier::SetGainFactor`. -/
def GainApplier.SetGainFactor (g : GainApplier) (gain_factor : F32) : GainApplier :=
  { g with current_gain_factor := gain_factor }

/-- Modelled from the spec: `GainApplier::ApplyGain` (agc2/gain_applier.cc is
not part of the translated file) multiplies every sample in every channel of
the frame by the current factor, in place, and does not clip. -/
def GainApplier.ApplyGain (C : Collaborators) (g : GainApplier) (frame : C.Frame) : C.Frame :=
  C.mapSamples (F32.mul g.current_gain_factor) frame

/-! ## The orchestrator -/

/-- `kLogLimiterStatsPeriodMs`. -/
def kLogLimiterStatsPeriodMs : Int := 30000

/-- `kFrameLengthMs`. -/
def kFrameLengthMs : Int := 10

/-- `kLogLimiterStatsPeriodNumFrames`. -/
def kLogLimiterStatsPeriodNumFrames : Int := kLogLimiterStatsPeriodMs / kFrameLengthMs

/-- `GetAllowedCpuFeatures`: the detected features with the kill switches
applied. -/
def GetAllowedCpuFeatures (C : Collaborators) : AvailableCpuFeatures :=
  let features := C.GetAvailableCpuFeatures
  let features :=
    if C.IsEnabled "WebRTC-Agc2SimdSse2KillSwitch" then { features with sse2 := false }
    else features
  let features :=
    if C.IsEnabled "WebRTC-Agc2SimdAvx2KillSwitch" then { features with avx2 := false }
    else features
  let features :=
    if C.IsEnabled "WebRTC-Agc2SimdNeonKillSwitch" then { features with neon := false }
    else features
  features

/-- `CreateAdaptiveDigitalController`: the controller if enabled, else null. -/
def CreateAdaptiveDigitalController (C : Collaborators) (config : AdaptiveDigital)
    (sample_rate_hz num_channels : Int) : Option C.AdaptiveDigitalGainController :=
  if config.enabled then some (C.adaptive_new config sample_rate_hz num_channels)
  else none

/-- `CreateInputVolumeController`: the controller if `enabled`, else null. -/
def CreateInputVolumeController (C : Collaborators) (enabled : Bool)
    (config : C.InputVolumeControllerConfig) (num_channels : Int) :
    Option C.InputVolumeController :=
  if enabled then some (C.ivc_new num_channels config) else none

/-- The data members of `GainController2`.  `data_dumper_` is the instance
index the dumper was created with; a null `unique_ptr` is `none`. -/
structure GainController2 (C : Collaborators) where
  cpu_features_ : AvailableCpuFeatures
  data_dumper_ : Int
  fixed_gain_applier_ : GainApplier
  adaptive_digital_controller_ : Option C.AdaptiveDigitalGainController
  input_volume_controller_ : Option C.InputVolumeController
  vad_ : Option C.VoiceActivityDetectorWrapper
  limiter_ : C.Limiter
  calls_since_last_limiter_log_ : Int

namespace GainController2

variable {C : Collaborators}

/-- The constructor `GainController2::GainController2`.  `instance_count` is
the value of the static counter `instance_count_` before the `fetch_add(1)`,
which leaves `instance_count + 1` in the counter.  The member initialisers run
first, then the body, whose first statement is the assertion on the
configuration. -/
def create (C : Collaborators) (instance_count : Int) (config : Agc2Config)
    (input_volume_controller_config : C.InputVolumeControllerConfig)
    (sample_rate_hz num_channels : Int) (use_internal_vad : Bool) :
    Exec C (GainController2 C) := do
  let mut self : GainController2 C :=
    { cpu_features_ := GetAllowedCpuFeatures C
      data_dumper_ := instance_count + 1
      fixed_gain_applier_ :=
        { hard_clip_samples := false
          current_gain_factor := DbToRatio C.pow10 config.fixed_digital.gain_db }
      adaptive_digital_controller_ :=
        CreateAdaptiveDigitalController C config.adaptive_digital sample_rate_hz num_channels
      input_volume_controller_ :=
        CreateInputVolumeController C config.input_volume_controller.enabled
          input_volume_controller_config num_channels
      vad_ := none
      limiter_ := C.limiter_new sample_rate_hz
      calls_since_last_limiter_log_ := 0 }
  RTC_DCHECK (Validate config) Fatal.validate_config
  call Call.dumper_InitiateNewSetOfRecordings
  let use_vad := config.adaptive_digital.enabled
  if use_vad && use_internal_vad then
    self := { self with
      vad_ := some (C.vad_new config.adaptive_digital.vad_reset_period_ms
        self.cpu_features_ sample_rate_hz) }
  if let some ivc := self.input_volume_controller_ then
    call Call.ivc_Initialize
    self := { self with input_volume_controller_ := some (C.ivc_Initialize ivc) }
  return self

/-- `GainController2::SetCaptureOutputUsed`. -/
def SetCaptureOutputUsed (self : GainController2 C) (capture_output_used : Bool) :
    Exec C (GainController2 C) := do
  let mut self := self
  if let some ivc := self.input_volume_controller_ then
    call (Call.ivc_HandleCaptureOutputUsedChange capture_output_used)
    self := { self with
      input_volume_controller_ :=
        some (C.ivc_HandleCaptureOutputUsedChange ivc capture_output_used) }
  return self

/-- `GainController2::SetFixedGainDb`. -/
def SetFixedGainDb (self : GainController2 C) (gain_db : F32) :
    Exec C (GainController2 C) := do
  let mut self := self
  let gain_factor := DbToRatio C.pow10 gain_db
  call Call.applier_GetGainFactor
  if F32.ne self.fixed_gain_applier_.GetGainFactor gain_factor then
    call Call.limiter_Reset
    self := { self with limiter_ := C.limiter_Reset self.limiter_ }
  call (Call.applier_SetGainFactor gain_factor)
  self := { self with
    fixed_gain_applier_ := self.fixed_gain_applier_.SetGainFactor gain_factor }
  return self

/-- `GainController2::Analyze`. -/
def Analyze (self : GainController2 C) (applied_input_volume : Int)
    (audio_buffer : C.Frame) : Exec C (GainController2 C) := do
  let mut self := self
  RTC_DCHECK (decide (applied_input_volume ≥ 0)) Fatal.applied_input_volume_ge_0
  RTC_DCHECK (decide (applied_input_volume ≤ 255)) Fatal.applied_input_volume_le_255
  if let some ivc := self.input_volume_controller_ then
    call (Call.ivc_set_stream_analog_level applied_input_volume)
    let ivc := C.ivc_set_stream_analog_level ivc applied_input_volume
    call (Call.ivc_AnalyzePreProcess audio_buffer)
    let ivc := C.ivc_AnalyzePreProcess ivc audio_buffer
    self := { self with input_volume_controller_ := some ivc }
  return self

/-- `GainController2::GetRecommendedInputVolume`, a `const` member function:
the value returned, next to the instance as the call leaves it. -/
def GetRecommendedInputVolume (self : GainController2 C) :
    Exec C (GainController2 C × Option Int) := do
  match self.input_volume_controller_ with
  | some ivc =>
    call Call.ivc_recommended_analog_level
    return (self, some (C.ivc_recommended_analog_level ivc))
  | none => return (self, none)

/-- `GainController2::Process`.  The frame is changed in place in the source;
here the run returns the instance together with the frame as the call leaves
it.  The frame counter is an `int` in the source; on every instance built by
the constructor it stays in `[0, 3000)`, so it is carried without wrap-around. -/
def Process (self : GainController2 C) (speech_probability : Option F32)
    (input_volume_changed : Bool) (audio : C.Frame) :
    Exec C (GainController2 C × C.Frame) := do
  let mut self := self
  let mut speech_probability := speech_probability
  call (Call.dumper_DumpRaw_applied_input_volume_changed input_volume_changed)
  if input_volume_changed then
    if let some adaptive := self.adaptive_digital_controller_ then
      call Call.adaptive_HandleInputGainChange
      self := { self with
        adaptive_digital_controller_ := some (C.adaptive_HandleInputGainChange adaptive) }
  let mut float_frame := audio
  if let some vad := self.vad_ then
    call (Call.vad_Analyze float_frame)
    let analysed := C.vad_Analyze vad float_frame
    self := { self with vad_ := some analysed.1 }
    speech_probability := some analysed.2
  else if let some p := speech_probability then
    RTC_DCHECK (F32.ge p (F32.fin 0)) Fatal.speech_probability_ge_0
    RTC_DCHECK (F32.le p (F32.fin 1)) Fatal.speech_probability_le_1
  if let some p := speech_probability then
    call (Call.dumper_DumpRaw_speech_probability p)
  if let some ivc := self.input_volume_controller_ then
    RTC_DCHECK self.adaptive_digital_controller_.isSome
      Fatal.adaptive_digital_controller_present
    let mut speech_level : Option F32 := none
    if let some adaptive := self.adaptive_digital_controller_ then
      call Call.adaptive_GetSpeechLevelDbfsIfConfident
      speech_level := C.adaptive_GetSpeechLevelDbfsIfConfident adaptive
    RTC_DCHECK speech_probability.isSome
      Fatal.speech_probability_has_value_for_input_volume_controller
    if let some p := speech_probability then
      call (Call.ivc_Process p speech_level)
      self := { self with input_volume_controller_ := some (C.ivc_Process ivc p speech_level) }
  if let some adaptive := self.adaptive_digital_controller_ then
    RTC_DCHECK speech_probability.isSome
      Fatal.speech_probability_has_value_for_adaptive_digital_controller
    match speech_probability with
    | none => RTC_DCHECK false Fatal.bad_optional_access
    | some p =>
      call Call.limiter_LastAudioLevel
      let limiter_level := C.limiter_LastAudioLevel self.limiter_
      call (Call.adaptive_Process float_frame p limiter_level)
      let processed := C.adaptive_Process adaptive float_frame p limiter_level
      self := { self with adaptive_digital_controller_ := some processed.1 }
      float_frame := processed.2
  call (Call.applier_ApplyGain float_frame)
  float_frame := self.fixed_gain_applier_.ApplyGain C float_frame
  call (Call.limiter_Process float_frame)
  let limited := C.limiter_Process self.limiter_ float_frame
  self := { self with limiter_ := limited.1 }
  float_frame := limited.2
  self := { self with
    calls_since_last_limiter_log_ := self.calls_since_last_limiter_log_ + 1 }
  if self.calls_since_last_limiter_log_ = kLogLimiterStatsPeriodNumFrames then
    self := { self with calls_since_last_limiter_log_ := 0 }
    call Call.limiter_GetGainCurveStats
    let stats := C.limiter_GetGainCurveStats self.limiter_
    call (Call.log_limiter_stats stats)
  return (self, float_frame)

/-! ### The five parts of `Process`

The body of `Process` cut into five consecutive parts, each a function of its
own; `Process` is their sequence (`Process_eq_blocks`). -/

/-- Lines 158 to 162 of `Process`: the dump of the flag and the notification of
the adaptive digital controller. -/
def notifyBlock (self : GainController2 C) (input_volume_changed : Bool) :
    Exec C (GainController2 C) := do
  let mut self := self
  call (Call.dumper_DumpRaw_applied_input_volume_changed input_volume_changed)
  if input_volume_changed then
    if let some adaptive := self.adaptive_digital_controller_ then
      call Call.adaptive_HandleInputGainChange
      self := { self with
        adaptive_digital_controller_ := some (C.adaptive_HandleInputGainChange adaptive) }
  return self

/-- Lines 164 to 174 of `Process`: the speech probability used by the rest of
the function. -/
def probabilityBlock (self : GainController2 C) (speech_probability : Option F32)
    (float_frame : C.Frame) : Exec C (GainController2 C × Option F32) := do
  let mut self := self
  let mut speech_probability := speech_probability
  if let some vad := self.vad_ then
    call (Call.vad_Analyze float_frame)
    let analysed := C.vad_Analyze vad float_frame
    self := { self with vad_ := some analysed.1 }
    speech_probability := some analysed.2
  else if let some p := speech_probability then
    RTC_DCHECK (F32.ge p (F32.fin 0)) Fatal.speech_probability_ge_0
    RTC_DCHECK (F32.le p (F32.fin 1)) Fatal.speech_probability_le_1
  if let some p := speech_probability then
    call (Call.dumper_DumpRaw_speech_probability p)
  return (self, speech_probability)

/-- Lines 176 to 188 of `Process`: the input volume controller. -/
def volumeBlock (self : GainController2 C) (speech_probability : Option F32) :
    Exec C (GainController2 C) := do
  let mut self := self
  if let some ivc := self.input_volume_controller_ then
    RTC_DCHECK self.adaptive_digital_controller_.isSome
      Fatal.adaptive_digital_controller_present
    let mut speech_level : Option F32 := none
    if let some adaptive := self.adaptive_digital_controller_ then
      call Call.adaptive_GetSpeechLevelDbfsIfConfident
      speech_level := C.adaptive_GetSpeechLevelDbfsIfConfident adaptive
    RTC_DCHECK speech_probability.isSome
      Fatal.speech_probability_has_value_for_input_volume_controller
    if let some p := speech_probability then
      call (Call.ivc_Process p speech_level)
      self := { self with input_volume_controller_ := some (C.ivc_Process ivc p speech_level) }
  return self

/-- Lines 190 to 194 of `Process`: the adaptive digital controller. -/
def adaptiveBlock (self : GainController2 C) (speech_probability : Option F32)
    (float_frame : C.Frame) : Exec C (GainController2 C × C.Frame) := do
  let mut self := self
  let mut float_frame := float_frame
  if let some adaptive := self.adaptive_digital_controller_ then
    RTC_DCHECK speech_probability.isSome
      Fatal.speech_probability_has_value_for_adaptive_digital_controller
    match speech_probability with
    | none => RTC_DCHECK false Fatal.bad_optional_access
    | some p =>
      call Call.limiter_LastAudioLevel
      let limiter_level := C.limiter_LastAudioLevel self.limiter_
      call (Call.adaptive_Process float_frame p limiter_level)
      let processed := C.adaptive_Process adaptive float_frame p limiter_level
      self := { self with adaptive_digital_controller_ := some processed.1 }
      float_frame := processed.2
  return (self, float_frame)

/-- Lines 196 to 209 of `Process`: the fixed gain, the limiter and the periodic
log of the limiter statistics. -/
def outputBlock (self : GainController2 C) (float_frame : C.Frame) :
    Exec C (GainController2 C × C.Frame) := do
  let mut self := self
  let mut float_frame := float_frame
  call (Call.applier_ApplyGain float_frame)
  float_frame := self.fixed_gain_applier_.ApplyGain C float_frame
  call (Call.limiter_Process float_frame)
  let limited := C.limiter_Process self.limiter_ float_frame
  self := { self with limiter_ := limited.1 }
  float_frame := limited.2
  self := { self with
    calls_since_last_limiter_log_ := self.calls_since_last_limiter_log_ + 1 }
  if self.calls_since_last_limiter_log_ = kLogLimiterStatsPeriodNumFrames then
    self := { self with calls_since_last_limiter_log_ := 0 }
    call Call.limiter_GetGainCurveStats
    let stats := C.limiter_GetGainCurveStats self.limiter_
    call (Call.log_limiter_stats stats)
  return (self, float_frame)

/-! ## Sequences of calls on one instance -/

/-- A call of one of the four state-changing member functions, with its
arguments. -/
inductive Op (C : Collaborators) where
  | Analyze (applied_input_volume : Int) (audio_buffer : C.Frame)
  | Process (speech_probability : Option F32) (input_volume_changed : Bool) (audio : C.Frame)
  | SetFixedGainDb (gain_db : F32)
  | SetCaptureOutputUsed (capture_output_used : Bool)

/-- Runs one call on the instance. -/
def runOp (self : GainController2 C) : Op C → Exec C (GainController2 C)
  | Op.Analyze applied_input_volume audio_buffer =>
    Analyze self applied_input_volume audio_buffer
  | Op.Process speech_probability input_volume_changed audio => do
    let r ← Process self speech_probability input_volume_changed audio
    return r.1
  | Op.SetFixedGainDb gain_db => SetFixedGainDb self gain_db
  | Op.SetCaptureOutputUsed capture_output_used =>
    SetCaptureOutputUsed self capture_output_used

/-- Runs the calls one after the other on the instance. -/
def runOps (self : GainController2 C) : List (Op C) → Exec C (GainController2 C)
  | [] => pure self
  | op :: rest => do
    let self ← runOp self op
    runOps self rest

/-- The arguments of one call of `Process`. -/
structure ProcessArgs (C : Collaborators) where
  speech_probability : Option F32
  input_volume_changed : Bool
  audio : C.Frame

/-- Calls `Process` once per element of the list, in order, on the instance. -/
def processAll (self : GainController2 C) : List (ProcessArgs C) → Exec C (GainController2 C)
  | [] => pure self
  | args :: rest => do
    let r ← Process self args.speech_probability args.input_volume_changed args.audio
    processAll r.1 rest

/-- What `Process` leaves alone in an instance: the presence of each
sub-component, the fixed gain applier, the CPU features and the dumper. -/
def SameShape (s self : GainController2 C) : Prop :=
  s.adaptive_digital_controller_.isSome = self.adaptive_digital_controller_.isSome ∧
  s.input_volume_controller_.isSome = self.input_volume_controller_.isSome ∧
  s.vad_.isSome = self.vad_.isSome ∧
  s.fixed_gain_applier_ = self.fixed_gain_applier_ ∧
  s.cpu_features_ = self.cpu_features_ ∧
  s.data_dumper_ = self.data_dumper_

end GainController2

/-! ## Closed forms for `Process` -/

/-- Whether a caller-supplied speech probability passes the range assertions
of `Process`. -/
def inUnitRange (x : F32) : Bool := F32.ge x (F32.fin 0) && F32.le x (F32.fin 1)

/-- Closed form of the member functions called by `Process`, in order, as a
function of the flag `changed`, of which sub-components are present, of the
caller-supplied probability (absent, or present and in range or not) and of
whether the frame counter reaches the period with this call. -/
def processKinds (changed adaptive ivc vad : Bool) (probability : Option Bool)
    (emit : Bool) : List CallKind :=
  let output : List CallKind :=
    [CallKind.applier_ApplyGain, CallKind.limiter_Process] ++
      (if emit then [CallKind.limiter_GetGainCurveStats, CallKind.log_limiter_stats] else [])
  let fromAdaptive (available : Bool) : List CallKind :=
    if adaptive then
      (if available then
        [CallKind.limiter_LastAudioLevel, CallKind.adaptive_Process] ++ output
      else [])
    else output
  let fromVolume (available : Bool) : List CallKind :=
    if ivc then
      (if adaptive then
        [CallKind.adaptive_GetSpeechLevelDbfsIfConfident] ++
          (if available then [CallKind.ivc_Process] ++ fromAdaptive available else [])
      else [])
    else fromAdaptive available
  [CallKind.dumper_DumpRaw_applied_input_volume_changed] ++
    (if changed && adaptive then [CallKind.adaptive_HandleInputGainChange] else []) ++
    (if vad then
      [CallKind.vad_Analyze, CallKind.dumper_DumpRaw_speech_probability] ++ fromVolume true
    else
      match probability with
      | none => fromVolume false
      | some true => [CallKind.dumper_DumpRaw_speech_probability] ++ fromVolume true
      | some false => [])

/-- Closed form of whether `Process` returns, as a function of which
sub-components are present and of the caller-supplied probability (absent, or
present and in range or not). -/
def processCompletes (adaptive ivc vad : Bool) (probability : Option Bool) : Bool :=
  let available := vad || probability.isSome
  (vad || probability != some false) && (!ivc || (adaptive && available)) &&
    (!adaptive || available)

/-! ## A small concrete environment -/

/-- State of the stand-in input volume controller. -/
structure SimpleVolumeController where
  initialized : Nat
  stream_analog_level : Int
  capture_output_used : Bool
  frames_analysed : Nat
  frames_processed : Nat
  deriving DecidableEq

/-- State of the stand-in limiter. -/
structure SimpleLimiter where
  resets : Nat
  last_audio_level : F32
  frames : Nat
  deriving DecidableEq

/-- Interpolation of `10^(q/20)` between the powers of ten, exact at the
multiples of 20 dB: with `k = ⌊q/20⌋`, the value `10^k * (1 + 9 * (q/20 - k))`,
computed on the numerator and the denominator of `q`. -/
def decadeInterpolation (q : ℚ) : ℚ :=
  let n : Int := q.num
  let d : Int := q.den
  let k : Int := n / (20 * d)
  let m : Int := 20 * d + 9 * (n - 20 * k * d)
  if 0 ≤ k then mkRat (10 ^ k.toNat * m) (20 * q.den)
  else mkRat m (20 * q.den * 10 ^ (-k).toNat)

/-- A concrete environment with elementary sub-components: frames are lists of
samples of one channel, the limiter passes a frame through and remembers its
first sample, the adaptive controller counts the notifications and the frames it
received, the voice activity detector answers one half. -/
def simpleEnv : Collaborators where
  Frame := List F32
  InputVolumeControllerConfig := Unit
  AdaptiveDigitalGainController := Nat × Nat
  InputVolumeController := SimpleVolumeController
  Limiter := SimpleLimiter
  VoiceActivityDetectorWrapper := Nat
  GetAvailableCpuFeatures := ⟨true, true, false⟩
  IsEnabled := fun _ => false
  pow10 := decadeInterpolation
  adaptive_new := fun _ _ _ => (0, 0)
  adaptive_HandleInputGainChange := fun a => (a.1 + 1, a.2)
  adaptive_GetSpeechLevelDbfsIfConfident :=
    fun a => if a.2 = 0 then none else some (F32.fin (-20))
  adaptive_Process := fun a frame _ _ => ((a.1, a.2 + 1), frame)
  ivc_new := fun _ _ => ⟨0, 0, true, 0, 0⟩
  ivc_Initialize := fun v => { v with initialized := v.initialized + 1 }
  ivc_HandleCaptureOutputUsedChange := fun v b => { v with capture_output_used := b }
  ivc_set_stream_analog_level := fun v level => { v with stream_analog_level := level }
  ivc_AnalyzePreProcess := fun v _ => { v with frames_analysed := v.frames_analysed + 1 }
  ivc_Process := fun v _ _ => { v with frames_processed := v.frames_processed + 1 }
  ivc_recommended_analog_level := fun v => v.stream_analog_level
  limiter_new := fun _ => ⟨0, F32.fin 0, 0⟩
  limiter_Reset := fun l => { l with resets := l.resets + 1, last_audio_level := F32.fin 0 }
  limiter_Process := fun l frame =>
    ({ l with last_audio_level := frame.headD (F32.fin 0), frames := l.frames + 1 }, frame)
  limiter_LastAudioLevel := fun l => l.last_audio_level
  limiter_GetGainCurveStats := fun l => ⟨l.frames, 0, 0, 0⟩
  vad_new := fun _ _ _ => 0
  vad_Analyze := fun v _ => (v + 1, F32.fin (mkRat 1 2))
  channels := fun frame => [frame]
  mapSamples := fun g frame => frame.map g
  channels_injective := fun _ _ h => (List.cons.inj h).1
  channels_mapSamples := fun _ _ => rfl

/-- The instance that the constructor returns in `simpleEnv` for instance
count 0, 48 kHz, one channel and a configuration passing `Validate`. -/
def simpleInstance (gain_db : ℚ) (adaptive_enabled ivc_enabled use_internal_vad : Bool) :
    GainController2 simpleEnv :=
  { cpu_features_ := ⟨true, true, false⟩
    data_dumper_ := 1
    fixed_gain_applier_ := ⟨false, DbToRatio decadeInterpolation (F32.fin gain_db)⟩
    adaptive_digital_controller_ :=
      if adaptive_enabled then some ((0, 0) : Nat × Nat) else none
    input_volume_controller_ :=
      if ivc_enabled then some (⟨1, 0, true, 0, 0⟩ : SimpleVolumeController) else none
    vad_ := if adaptive_enabled && use_internal_vad then some (0 : Nat) else none
    limiter_ := (⟨0, F32.fin 0, 0⟩ : SimpleLimiter)
    calls_since_last_limiter_log_ := 0 }

/-- A configuration with the default values of the AGC2 configuration apart
from the fixed gain and the two switches. -/
def sampleConfig (gain_db : ℚ) (adaptive_enabled ivc_enabled : Bool) : Agc2Config :=
  { fixed_digital := ⟨F32.fin gain_db⟩
    adaptive_digital := ⟨adaptive_enabled, F32.fin 6, F32.fin 30, F32.fin 8, F32.fin 3,
      F32.fin (-50), 1500⟩
    input_volume_controller := ⟨ivc_enabled⟩ }

/-- The decimal power of `simpleEnv` with the value at 6 dB taken in single
precision: the quotient `6.f / 20.f` rounds to `0.300000012`, and ten to that
power rounds to the single `8368737 / 2^22`, about `1.9952624`; elsewhere the
interpolation. -/
def pow10AtSixDb (q : ℚ) : ℚ :=
  if q = 6 then mkRat 8368737 4194304 else decadeInterpolation q

/-- The environment `simpleEnv` with `pow10AtSixDb` for the decimal power. -/
def sixDbEnv : Collaborators := { simpleEnv with pow10 := pow10AtSixDb }

/-- The instance that the constructor returns in `sixDbEnv` for instance
count 0, 48 kHz, one channel and the configuration `sampleConfig 6 false false`:
fixed gain 6 dB, no adaptive digital controller, no input volume controller. -/
def sixDbInstance : GainController2 sixDbEnv :=
  { cpu_features_ := ⟨true, true, false⟩
    data_dumper_ := 1
    fixed_gain_applier_ := ⟨false, DbToRatio pow10AtSixDb (F32.fin 6)⟩
    adaptive_digital_controller_ := none
    input_volume_controller_ := none
    vad_ := none
    limiter_ := (⟨0, F32.fin 0, 0⟩ : SimpleLimiter)
    calls_since_last_limiter_log_ := 0 }

/-- The environment `simpleEnv` with a given answer of the CPU feature probe
and given states of the three kill switches; every other field trial is off. -/
def cpuEnv (detected : AvailableCpuFeatures) (killSse2 killAvx2 killNeon : Bool) :
    Collaborators :=
  { simpleEnv with
    GetAvailableCpuFeatures := detected
    IsEnabled := fun name =>
      if name = "WebRTC-Agc2SimdSse2KillSwitch" then killSse2
      else if name = "WebRTC-Agc2SimdAvx2KillSwitch" then killAvx2
      else if name = "WebRTC-Agc2SimdNeonKillSwitch" then killNeon
      else false }

/-! ## Arguments of the calls -/

/-- The speech probability that a call hands to the input volume controller or
to the adaptive digital controller: the probability argument of the `Process`
of either, nothing for any other call. -/
def Call.handedProbability {C : Collaborators} : Call C → Option F32
  | Call.ivc_Process speech_probability _ => some speech_probability
  | Call.adaptive_Process _ speech_probability _ => some speech_probability
  | _ => none

end webrtc

namespace webrtc

/-! ## Sequencing lemmas -/

namespace Exec

variable {C : Collaborators} {α β : Type}

theorem pure_eq (a : α) : (pure a : Exec C α) = ⟨[], Except.ok a⟩ := rfl

theorem bind_eq (m : Exec C α) (f : α → Exec C β) : (m >>= f) = andThen m f := rfl

@[simp] theorem andThen_ok (cs : List (Call C)) (a : α) (f : α → Exec C β) :
    andThen ⟨cs, Except.ok a⟩ f = ⟨cs ++ (f a).calls, (f a).result⟩ := rfl

@[simp] theorem andThen_error (cs : List (Call C)) (e : Fatal) (f : α → Exec C β) :
    andThen ⟨cs, Except.error e⟩ f = ⟨cs, Except.error e⟩ := rfl

end Exec

@[simp] theorem call_eq {C : Collaborators} (c : Call C) :
    (call c : Exec C Unit) = ⟨[c], Except.ok ()⟩ := rfl

@[simp] theorem RTC_DCHECK_true {C : Collaborators} (failure : Fatal) :
    (RTC_DCHECK true failure : Exec C Unit) = ⟨[], Except.ok ()⟩ := rfl

@[simp] theorem RTC_DCHECK_false {C : Collaborators} (failure : Fatal) :
    (RTC_DCHECK false failure : Exec C Unit) = ⟨[], Except.error failure⟩ := rfl

namespace Exec

variable {C : Collaborators} {α β : Type}

theorem andThen_result_ok {m : Exec C α} {f : α → Exec C β} {b : β}
    (h : (andThen m f).result = Except.ok b) :
    ∃ a, m.result = Except.ok a ∧ (f a).result = Except.ok b := by
  obtain ⟨cs, r⟩ := m
  cases r with
  | error e => simp at h
  | ok a => exact ⟨a, rfl, by simpa using h⟩

theorem andThen_of_ok {m : Exec C α} {a : α} (h : m.result = Except.ok a)
    (f : α → Exec C β) :
    andThen m f = ⟨m.calls ++ (f a).calls, (f a).result⟩ := by
  obtain ⟨cs, r⟩ := m
  cases h
  rfl

theorem andThen_of_error {m : Exec C α} {e : Fatal} (h : m.result = Except.error e)
    (f : α → Exec C β) :
    andThen m f = ⟨m.calls, Except.error e⟩ := by
  obtain ⟨cs, r⟩ := m
  cases h
  rfl

theorem completes_iff (m : Exec C α) : m.completes = true ↔ ∃ a, m.result = Except.ok a := by
  obtain ⟨cs, r⟩ := m
  cases r <;> simp [completes]

theorem completes_eq_false_iff (m : Exec C α) :
    m.completes = false ↔ ∃ e, m.result = Except.error e := by
  obtain ⟨cs, r⟩ := m
  cases r <;> simp [completes]

theorem kinds_andThen_of_ok {m : Exec C α} {a : α}
    (h : m.result = Except.ok a) (f : α → Exec C β) :
    (andThen m f).kinds = m.kinds ++ (f a).kinds := by
  rw [andThen_of_ok h]
  simp [kinds]

theorem result_of_completes {m : Exec C α} (h : m.completes = true) (fallback : α) :
    m.result = Except.ok (m.valueD fallback) := by
  obtain ⟨cs, r⟩ := m
  cases r with
  | error e => simp [completes] at h
  | ok a => rfl

end Exec

/-! ## Comparisons of floats -/

theorem F32.ge_zero_iff (a : F32) :
    F32.ge a (F32.fin 0) = true ↔ a = F32.posInf ∨ ∃ q : ℚ, a = F32.fin q ∧ 0 ≤ q := by
  cases a <;> simp [F32.ge, F32.le]

theorem F32.gt_zero_iff (a : F32) :
    F32.gt a (F32.fin 0) = true ↔ a = F32.posInf ∨ ∃ q : ℚ, a = F32.fin q ∧ 0 < q := by
  cases a <;> simp [F32.gt, F32.lt]

theorem F32.le_zero_iff (a : F32) :
    F32.le a (F32.fin 0) = true ↔ a = F32.negInf ∨ ∃ q : ℚ, a = F32.fin q ∧ q ≤ 0 := by
  cases a <;> simp [F32.le]

theorem F32.ge_zero_lt_fifty_iff (a : F32) :
    (F32.ge a (F32.fin 0) = true ∧ F32.lt a (F32.fin 50) = true) ↔
      ∃ q : ℚ, a = F32.fin q ∧ 0 ≤ q ∧ q < 50 := by
  cases a <;> simp [F32.ge, F32.le, F32.lt]

theorem DbToRatio_isNan (pow10 : ℚ → ℚ) (x : F32) :
    (DbToRatio pow10 x).isNan = x.isNan := by
  cases x <;> simp [DbToRatio, F32.isNan]
  split_ifs <;> rfl

theorem F32.ne_self (a : F32) : F32.ne a a = a.isNan := by
  cases a <;> simp [F32.ne, F32.eq, F32.isNan]

namespace GainController2

variable {C : Collaborators}

/-! ## The member functions as equations -/

theorem create_eq_of_valid (C : Collaborators) (instance_count : Int) (config : Agc2Config)
    (input_volume_controller_config : C.InputVolumeControllerConfig)
    (sample_rate_hz num_channels : Int) (use_internal_vad : Bool)
    (h : Validate config = true) :
    create C instance_count config input_volume_controller_config sample_rate_hz
        num_channels use_internal_vad =
      ⟨Call.dumper_InitiateNewSetOfRecordings ::
          (if config.input_volume_controller.enabled = true then [Call.ivc_Initialize] else []),
        Except.ok
          { cpu_features_ := GetAllowedCpuFeatures C
            data_dumper_ := instance_count + 1
            fixed_gain_applier_ :=
              { hard_clip_samples := false
                current_gain_factor := DbToRatio C.pow10 config.fixed_digital.gain_db }
            adaptive_digital_controller_ :=
              if config.adaptive_digital.enabled = true then
                some (C.adaptive_new config.adaptive_digital sample_rate_hz num_channels)
              else none
            input_volume_controller_ :=
              if config.input_volume_controller.enabled = true then
                some (C.ivc_Initialize (C.ivc_new num_channels input_volume_controller_config))
              else none
            vad_ :=
              if (config.adaptive_digital.enabled && use_internal_vad) = true then
                some (C.vad_new config.adaptive_digital.vad_reset_period_ms
                  (GetAllowedCpuFeatures C) sample_rate_hz)
              else none
            limiter_ := C.limiter_new sample_rate_hz
            calls_since_last_limiter_log_ := 0 }⟩ := by
  cases he : config.adaptive_digital.enabled <;> cases hv : use_internal_vad <;>
    cases hi : config.input_volume_controller.enabled <;>
    simp [create, h, he, hi, Exec.bind_eq, Exec.pure_eq,
      CreateAdaptiveDigitalController, CreateInputVolumeController]

theorem SetCaptureOutputUsed_eq (self : GainController2 C) (b : Bool) :
    SetCaptureOutputUsed self b =
      match self.input_volume_controller_ with
      | none => ⟨[], Except.ok self⟩
      | some ivc =>
        ⟨[Call.ivc_HandleCaptureOutputUsedChange b],
          Except.ok { self with
            input_volume_controller_ := some (C.ivc_HandleCaptureOutputUsedChange ivc b) }⟩ := by
  cases h : self.input_volume_controller_ <;>
    simp [SetCaptureOutputUsed, h, Exec.bind_eq, Exec.pure_eq]

theorem SetFixedGainDb_eq (self : GainController2 C) (gain_db : F32) :
    SetFixedGainDb self gain_db =
      if F32.ne self.fixed_gain_applier_.GetGainFactor (DbToRatio C.pow10 gain_db) = true then
        ⟨[Call.applier_GetGainFactor, Call.limiter_Reset,
            Call.applier_SetGainFactor (DbToRatio C.pow10 gain_db)],
          Except.ok { self with
            limiter_ := C.limiter_Reset self.limiter_
            fixed_gain_applier_ :=
              self.fixed_gain_applier_.SetGainFactor (DbToRatio C.pow10 gain_db) }⟩
      else
        ⟨[Call.applier_GetGainFactor, Call.applier_SetGainFactor (DbToRatio C.pow10 gain_db)],
          Except.ok { self with
            fixed_gain_applier_ :=
              self.fixed_gain_applier_.SetGainFactor (DbToRatio C.pow10 gain_db) }⟩ := by
  cases h : F32.ne self.fixed_gain_applier_.GetGainFactor (DbToRatio C.pow10 gain_db) <;>
    simp [SetFixedGainDb, h, Exec.bind_eq, Exec.pure_eq]

theorem create_gain_factor (C : Collaborators) (instance_count : Int) (config : Agc2Config)
    (input_volume_controller_config : C.InputVolumeControllerConfig)
    (sample_rate_hz num_channels : Int) (use_internal_vad : Bool) (self : GainController2 C)
    (h : (create C instance_count config input_volume_controller_config sample_rate_hz
      num_channels use_internal_vad).result = Except.ok self) :
    self.fixed_gain_applier_.GetGainFactor = DbToRatio C.pow10 config.fixed_digital.gain_db := by
  by_cases hv : Validate config = true
  · rw [create_eq_of_valid C _ _ _ _ _ _ hv] at h
    cases h
    rfl
  · have hv2 : Validate config = false := by simpa using hv
    revert h
    simp [create, hv2, Exec.bind_eq]

theorem SetFixedGainDb_gain_factor (self s : GainController2 C) (gain_db : F32)
    (h : (SetFixedGainDb self gain_db).result = Except.ok s) :
    s.fixed_gain_applier_.GetGainFactor = DbToRatio C.pow10 gain_db := by
  revert h
  rw [SetFixedGainDb_eq]
  split_ifs <;> (intro h; cases h; rfl)

theorem Analyze_eq (self : GainController2 C) (v : Int) (buf : C.Frame) :
    Analyze self v buf =
      if v < 0 then ⟨[], Except.error Fatal.applied_input_volume_ge_0⟩
      else if 255 < v then ⟨[], Except.error Fatal.applied_input_volume_le_255⟩
      else
        match self.input_volume_controller_ with
        | none => ⟨[], Except.ok self⟩
        | some ivc =>
          ⟨[Call.ivc_set_stream_analog_level v, Call.ivc_AnalyzePreProcess buf],
            Except.ok { self with
              input_volume_controller_ :=
                some (C.ivc_AnalyzePreProcess (C.ivc_set_stream_analog_level ivc v) buf) }⟩ := by
  by_cases h0 : v < 0
  · have : ¬ (0 ≤ v) := by omega
    simp [Analyze, h0, this, Exec.bind_eq, Exec.pure_eq]
  · by_cases h1 : 255 < v
    · have h2 : ¬ (v ≤ 255) := by omega
      have h3 : 0 ≤ v := by omega
      simp [Analyze, h0, h1, h2, h3, Exec.bind_eq, Exec.pure_eq]
    · have h2 : v ≤ 255 := by omega
      have h3 : 0 ≤ v := by omega
      cases h : self.input_volume_controller_ <;>
        simp [Analyze, h0, h1, h2, h3, h, Exec.bind_eq, Exec.pure_eq]

theorem GetRecommendedInputVolume_eq (self : GainController2 C) :
    GetRecommendedInputVolume self =
      match self.input_volume_controller_ with
      | none => ⟨[], Except.ok (self, none)⟩
      | some ivc =>
        ⟨[Call.ivc_recommended_analog_level],
          Except.ok (self, some (C.ivc_recommended_analog_level ivc))⟩ := by
  cases h : self.input_volume_controller_ <;>
    simp [GetRecommendedInputVolume, h, Exec.bind_eq, Exec.pure_eq]

/-! ## The blocks of `Process`, case by case -/

theorem notifyBlock_false (self : GainController2 C) :
    notifyBlock self false =
      ⟨[Call.dumper_DumpRaw_applied_input_volume_changed false], Except.ok self⟩ := rfl

theorem notifyBlock_true_none (self : GainController2 C)
    (h : self.adaptive_digital_controller_ = none) :
    notifyBlock self true =
      ⟨[Call.dumper_DumpRaw_applied_input_volume_changed true], Except.ok self⟩ := by
  simp [notifyBlock, h, Exec.pure_eq, Exec.bind_eq]

theorem notifyBlock_true_some (self : GainController2 C)
    (adaptive : C.AdaptiveDigitalGainController)
    (h : self.adaptive_digital_controller_ = some adaptive) :
    notifyBlock self true =
      ⟨[Call.dumper_DumpRaw_applied_input_volume_changed true,
          Call.adaptive_HandleInputGainChange],
        Except.ok { self with
          adaptive_digital_controller_ := some (C.adaptive_HandleInputGainChange adaptive) }⟩ := by
  simp [notifyBlock, h, Exec.pure_eq, Exec.bind_eq]

theorem probabilityBlock_vad (self : GainController2 C) (p : Option F32) (frame : C.Frame)
    (vad : C.VoiceActivityDetectorWrapper) (h : self.vad_ = some vad) :
    probabilityBlock self p frame =
      ⟨[Call.vad_Analyze frame,
          Call.dumper_DumpRaw_speech_probability (C.vad_Analyze vad frame).2],
        Except.ok ({ self with vad_ := some (C.vad_Analyze vad frame).1 },
          some (C.vad_Analyze vad frame).2)⟩ := by
  simp [probabilityBlock, h, Exec.pure_eq, Exec.bind_eq]

theorem probabilityBlock_none (self : GainController2 C) (frame : C.Frame)
    (h : self.vad_ = none) :
    probabilityBlock self none frame = ⟨[], Except.ok (self, none)⟩ := by
  simp [probabilityBlock, h, Exec.pure_eq, Exec.bind_eq]

theorem probabilityBlock_some (self : GainController2 C) (x : F32) (frame : C.Frame)
    (h : self.vad_ = none) :
    probabilityBlock self (some x) frame =
      if F32.ge x (F32.fin 0) = true then
        if F32.le x (F32.fin 1) = true then
          ⟨[Call.dumper_DumpRaw_speech_probability x], Except.ok (self, some x)⟩
        else ⟨[], Except.error Fatal.speech_probability_le_1⟩
      else ⟨[], Except.error Fatal.speech_probability_ge_0⟩ := by
  cases hge : F32.ge x (F32.fin 0) <;> cases hle : F32.le x (F32.fin 1) <;>
    simp [probabilityBlock, h, hge, hle, Exec.pure_eq, Exec.bind_eq]

theorem volumeBlock_none (self : GainController2 C) (p : Option F32)
    (h : self.input_volume_controller_ = none) :
    volumeBlock self p = ⟨[], Except.ok self⟩ := by
  simp [volumeBlock, h, Exec.pure_eq, Exec.bind_eq]

theorem volumeBlock_some_none (self : GainController2 C) (p : Option F32)
    (ivc : C.InputVolumeController) (h : self.input_volume_controller_ = some ivc)
    (ha : self.adaptive_digital_controller_ = none) :
    volumeBlock self p = ⟨[], Except.error Fatal.adaptive_digital_controller_present⟩ := by
  simp [volumeBlock, h, ha, Exec.pure_eq, Exec.bind_eq]

theorem volumeBlock_some_some_none (self : GainController2 C)
    (ivc : C.InputVolumeController) (adaptive : C.AdaptiveDigitalGainController)
    (h : self.input_volume_controller_ = some ivc)
    (ha : self.adaptive_digital_controller_ = some adaptive) :
    volumeBlock self none =
      ⟨[Call.adaptive_GetSpeechLevelDbfsIfConfident],
        Except.error Fatal.speech_probability_has_value_for_input_volume_controller⟩ := by
  simp [volumeBlock, h, ha, Exec.pure_eq, Exec.bind_eq]

theorem volumeBlock_some_some_some (self : GainController2 C)
    (ivc : C.InputVolumeController) (adaptive : C.AdaptiveDigitalGainController) (x : F32)
    (h : self.input_volume_controller_ = some ivc)
    (ha : self.adaptive_digital_controller_ = some adaptive) :
    volumeBlock self (some x) =
      ⟨[Call.adaptive_GetSpeechLevelDbfsIfConfident,
          Call.ivc_Process x (C.adaptive_GetSpeechLevelDbfsIfConfident adaptive)],
        Except.ok { self with
          input_volume_controller_ :=
            some (C.ivc_Process ivc x (C.adaptive_GetSpeechLevelDbfsIfConfident adaptive)) }⟩ := by
  simp [volumeBlock, h, ha, Exec.pure_eq, Exec.bind_eq]

theorem adaptiveBlock_none (self : GainController2 C) (p : Option F32) (frame : C.Frame)
    (h : self.adaptive_digital_controller_ = none) :
    adaptiveBlock self p frame = ⟨[], Except.ok (self, frame)⟩ := by
  simp [adaptiveBlock, h, Exec.pure_eq, Exec.bind_eq]

theorem adaptiveBlock_some_none (self : GainController2 C) (frame : C.Frame)
    (adaptive : C.AdaptiveDigitalGainController)
    (h : self.adaptive_digital_controller_ = some adaptive) :
    adaptiveBlock self none frame =
      ⟨[], Except.error
        Fatal.speech_probability_has_value_for_adaptive_digital_controller⟩ := by
  simp [adaptiveBlock, h, Exec.pure_eq, Exec.bind_eq]

theorem adaptiveBlock_some_some (self : GainController2 C) (frame : C.Frame)
    (adaptive : C.AdaptiveDigitalGainController) (x : F32)
    (h : self.adaptive_digital_controller_ = some adaptive) :
    adaptiveBlock self (some x) frame =
      ⟨[Call.limiter_LastAudioLevel,
          Call.adaptive_Process frame x (C.limiter_LastAudioLevel self.limiter_)],
        Except.ok ({ self with
            adaptive_digital_controller_ :=
              some (C.adaptive_Process adaptive frame x
                (C.limiter_LastAudioLevel self.limiter_)).1 },
          (C.adaptive_Process adaptive frame x (C.limiter_LastAudioLevel self.limiter_)).2)⟩ := by
  simp [adaptiveBlock, h, Exec.pure_eq, Exec.bind_eq]

theorem outputBlock_eq (self : GainController2 C) (frame : C.Frame) :
    outputBlock self frame =
      ⟨[Call.applier_ApplyGain frame,
          Call.limiter_Process (self.fixed_gain_applier_.ApplyGain C frame)] ++
        (if self.calls_since_last_limiter_log_ + 1 = kLogLimiterStatsPeriodNumFrames then
          [Call.limiter_GetGainCurveStats,
            Call.log_limiter_stats (C.limiter_GetGainCurveStats
              (C.limiter_Process self.limiter_ (self.fixed_gain_applier_.ApplyGain C frame)).1)]
        else []),
        Except.ok ({ self with
            limiter_ :=
              (C.limiter_Process self.limiter_ (self.fixed_gain_applier_.ApplyGain C frame)).1
            calls_since_last_limiter_log_ :=
              if self.calls_since_last_limiter_log_ + 1 = kLogLimiterStatsPeriodNumFrames then 0
              else self.calls_since_last_limiter_log_ + 1 },
          (C.limiter_Process self.limiter_ (self.fixed_gain_applier_.ApplyGain C frame)).2)⟩ := by
  by_cases hc : self.calls_since_last_limiter_log_ + 1 = kLogLimiterStatsPeriodNumFrames <;>
    simp [outputBlock, hc, Exec.pure_eq, Exec.bind_eq]

theorem notifyBlock_eq (self : GainController2 C) (b : Bool) :
    notifyBlock self b =
      match b, self.adaptive_digital_controller_ with
      | true, some adaptive =>
        ⟨[Call.dumper_DumpRaw_applied_input_volume_changed true,
          Call.adaptive_HandleInputGainChange],
        Except.ok { self with
          adaptive_digital_controller_ := some (C.adaptive_HandleInputGainChange adaptive) }⟩
      | _, _ => ⟨[Call.dumper_DumpRaw_applied_input_volume_changed b], Except.ok self⟩ := by
  cases b
  · simp [notifyBlock_false]
  · cases h : self.adaptive_digital_controller_ with
    | none => simp [notifyBlock_true_none self h]
    | some a => simp [notifyBlock_true_some self a h]

theorem probabilityBlock_eq (self : GainController2 C) (p : Option F32) (frame : C.Frame) :
    probabilityBlock self p frame =
      match self.vad_, p with
      | some vad, _ =>
        ⟨[Call.vad_Analyze frame,
          Call.dumper_DumpRaw_speech_probability (C.vad_Analyze vad frame).2],
        Except.ok ({ self with vad_ := some (C.vad_Analyze vad frame).1 },
          some (C.vad_Analyze vad frame).2)⟩
      | none, none => ⟨[], Except.ok (self, none)⟩
      | none, some x =>
        match F32.ge x (F32.fin 0), F32.le x (F32.fin 1) with
        | true, true =>
          ⟨[Call.dumper_DumpRaw_speech_probability x], Except.ok (self, some x)⟩
        | true, false => ⟨[], Except.error Fatal.speech_probability_le_1⟩
        | false, _ => ⟨[], Except.error Fatal.speech_probability_ge_0⟩ := by
  cases h : self.vad_ with
  | some vad => simp [probabilityBlock_vad self p frame vad h]
  | none =>
    cases p with
    | none => simp [probabilityBlock_none self frame h]
    | some x =>
      cases hge : F32.ge x (F32.fin 0) <;> cases hle : F32.le x (F32.fin 1) <;>
        simp [probabilityBlock_some self x frame h, hge, hle]

theorem volumeBlock_eq (self : GainController2 C) (p : Option F32) :
    volumeBlock self p =
      match self.input_volume_controller_, self.adaptive_digital_controller_, p with
      | none, _, _ => ⟨[], Except.ok self⟩
      | some _, none, _ => ⟨[], Except.error Fatal.adaptive_digital_controller_present⟩
      | some _, some _, none =>
        ⟨[Call.adaptive_GetSpeechLevelDbfsIfConfident],
          Except.error Fatal.speech_probability_has_value_for_input_volume_controller⟩
      | some ivc, some adaptive, some x =>
        ⟨[Call.adaptive_GetSpeechLevelDbfsIfConfident,
          Call.ivc_Process x (C.adaptive_GetSpeechLevelDbfsIfConfident adaptive)],
        Except.ok { self with
          input_volume_controller_ :=
            some (C.ivc_Process ivc x (C.adaptive_GetSpeechLevelDbfsIfConfident adaptive)) }⟩ := by
  cases h : self.input_volume_controller_ with
  | none => simp [volumeBlock_none self p h]
  | some ivc =>
    cases ha : self.adaptive_digital_controller_ with
    | none => simp [volumeBlock_some_none self p ivc h ha]
    | some a =>
      cases p with
      | none => simp [volumeBlock_some_some_none self ivc a h ha]
      | some x => simp [volumeBlock_some_some_some self ivc a x h ha, ha]

theorem adaptiveBlock_eq (self : GainController2 C) (p : Option F32) (frame : C.Frame) :
    adaptiveBlock self p frame =
      match self.adaptive_digital_controller_, p with
      | none, _ => ⟨[], Except.ok (self, frame)⟩
      | some _, none =>
        ⟨[], Except.error Fatal.speech_probability_has_value_for_adaptive_digital_controller⟩
      | some adaptive, some x =>
        ⟨[Call.limiter_LastAudioLevel,
          Call.adaptive_Process frame x (C.limiter_LastAudioLevel self.limiter_)],
        Except.ok ({ self with
            adaptive_digital_controller_ :=
              some (C.adaptive_Process adaptive frame x
                (C.limiter_LastAudioLevel self.limiter_)).1 },
          (C.adaptive_Process adaptive frame x (C.limiter_LastAudioLevel self.limiter_)).2)⟩ := by
  cases h : self.adaptive_digital_controller_ with
  | none => simp [adaptiveBlock_none self p frame h]
  | some a =>
    cases p with
    | none => simp [adaptiveBlock_some_none self frame a h]
    | some x => simp [adaptiveBlock_some_some self frame a x h]

theorem Process_eq_blocks (self : GainController2 C) (speech_probability : Option F32)
    (input_volume_changed : Bool) (audio : C.Frame) :
    Process self speech_probability input_volume_changed audio =
      (notifyBlock self input_volume_changed).andThen fun s1 =>
      (probabilityBlock s1 speech_probability audio).andThen fun sp =>
      (volumeBlock sp.1 sp.2).andThen fun s3 =>
      (adaptiveBlock s3 sp.2 audio).andThen fun sf =>
      outputBlock sf.1 sf.2 := by
  obtain ⟨cpu, dd, app, ad, ivc, vad, lim, cnt⟩ := self
  unfold Process notifyBlock probabilityBlock volumeBlock adaptiveBlock outputBlock
  cases ad <;> cases ivc <;> cases vad <;> cases input_volume_changed <;>
    rcases speech_probability with _ | x <;>
    first
      | rfl
      | (dsimp only
         generalize F32.ge x (F32.fin 0) = g0
         generalize F32.le x (F32.fin 1) = g1
         cases g0 <;> cases g1 <;> rfl)

theorem Process_ok_blocks {self : GainController2 C} {p : Option F32} {b : Bool}
    {audio : C.Frame} {r : GainController2 C × C.Frame}
    (h : (Process self p b audio).result = Except.ok r) :
    ∃ (s1 : GainController2 C) (sp : GainController2 C × Option F32)
      (s3 : GainController2 C) (sf : GainController2 C × C.Frame),
      (notifyBlock self b).result = Except.ok s1 ∧
      (probabilityBlock s1 p audio).result = Except.ok sp ∧
      (volumeBlock sp.1 sp.2).result = Except.ok s3 ∧
      (adaptiveBlock s3 sp.2 audio).result = Except.ok sf ∧
      (outputBlock sf.1 sf.2).result = Except.ok r ∧
      (Process self p b audio).calls =
        (notifyBlock self b).calls ++ ((probabilityBlock s1 p audio).calls ++
          ((volumeBlock sp.1 sp.2).calls ++ ((adaptiveBlock s3 sp.2 audio).calls ++
            (outputBlock sf.1 sf.2).calls))) := by
  rw [Process_eq_blocks] at h ⊢
  obtain ⟨s1, h1, h⟩ := Exec.andThen_result_ok h
  obtain ⟨sp, h2, h⟩ := Exec.andThen_result_ok h
  obtain ⟨s3, h3, h⟩ := Exec.andThen_result_ok h
  obtain ⟨sf, h4, h⟩ := Exec.andThen_result_ok h
  refine ⟨s1, sp, s3, sf, h1, h2, h3, h4, h, ?_⟩
  rw [Exec.andThen_of_ok h1, Exec.andThen_of_ok h2, Exec.andThen_of_ok h3,
    Exec.andThen_of_ok h4]

/-! ## Closed forms of `Process` -/

theorem Process_completes_eq (self : GainController2 C) (p : Option F32) (b : Bool)
    (audio : C.Frame) :
    (Process self p b audio).completes =
      processCompletes self.adaptive_digital_controller_.isSome
        self.input_volume_controller_.isSome self.vad_.isSome (p.map inUnitRange) := by
  obtain ⟨cpu, dd, app, ad, ivc, vad, lim, cnt⟩ := self
  rw [Process_eq_blocks]
  cases ad <;> cases ivc <;> cases vad <;> cases b <;> rcases p with _ | x <;>
    (try cases hge : F32.ge x (F32.fin 0)) <;> (try cases hle : F32.le x (F32.fin 1)) <;>
    simp only [notifyBlock_eq, probabilityBlock_eq, volumeBlock_eq, adaptiveBlock_eq,
      outputBlock_eq, Exec.andThen_ok, Exec.andThen_error, *] <;>
    simp [Exec.completes, processCompletes, inUnitRange, *]

theorem Process_kinds_eq (self : GainController2 C) (p : Option F32) (b : Bool)
    (audio : C.Frame) :
    (Process self p b audio).kinds =
      processKinds b self.adaptive_digital_controller_.isSome
        self.input_volume_controller_.isSome self.vad_.isSome (p.map inUnitRange)
        (decide (self.calls_since_last_limiter_log_ + 1 = kLogLimiterStatsPeriodNumFrames)) := by
  obtain ⟨cpu, dd, app, ad, ivc, vad, lim, cnt⟩ := self
  rw [Process_eq_blocks]
  cases ad <;> cases ivc <;> cases vad <;> cases b <;> rcases p with _ | x <;>
    (try cases hge : F32.ge x (F32.fin 0)) <;> (try cases hle : F32.le x (F32.fin 1)) <;>
    simp only [notifyBlock_eq, probabilityBlock_eq, volumeBlock_eq, adaptiveBlock_eq,
      outputBlock_eq, Exec.andThen_ok, Exec.andThen_error, *] <;>
    (by_cases hc : cnt + 1 = kLogLimiterStatsPeriodNumFrames <;>
      simp [Exec.kinds, Call.kind, processKinds, inUnitRange, hc, *])

theorem processKinds_count_log (b ad ivc vad : Bool) (q : Option Bool) (e : Bool)
    (hc : processCompletes ad ivc vad q = true) :
    (processKinds b ad ivc vad q e).count CallKind.log_limiter_stats =
      (if e = true then 1 else 0) := by
  revert b ad ivc vad q e
  decide

/-! ## What the blocks leave alone -/

theorem SameShape.trans {a b c : GainController2 C} (h1 : SameShape a b)
    (h2 : SameShape b c) : SameShape a c := by
  obtain ⟨a1, a2, a3, a4, a5, a6⟩ := h1
  obtain ⟨b1, b2, b3, b4, b5, b6⟩ := h2
  exact ⟨a1.trans b1, a2.trans b2, a3.trans b3, a4.trans b4, a5.trans b5, a6.trans b6⟩

theorem notifyBlock_shape (self s : GainController2 C) (b : Bool)
    (h : (notifyBlock self b).result = Except.ok s) :
    SameShape s self ∧ s.calls_since_last_limiter_log_ = self.calls_since_last_limiter_log_ := by
  revert h
  rw [notifyBlock_eq]
  cases b <;> cases ha : self.adaptive_digital_controller_ <;>
    (intro h; cases h; simp [SameShape, ha])

theorem probabilityBlock_shape (self : GainController2 C) (p : Option F32) (frame : C.Frame)
    (s : GainController2 C × Option F32)
    (h : (probabilityBlock self p frame).result = Except.ok s) :
    SameShape s.1 self ∧
      s.1.calls_since_last_limiter_log_ = self.calls_since_last_limiter_log_ := by
  revert h
  rw [probabilityBlock_eq]
  cases hv : self.vad_ <;> rcases p with _ | x <;> dsimp only <;>
    (try (cases F32.ge x (F32.fin 0) <;> cases F32.le x (F32.fin 1) <;> dsimp only)) <;>
    (intro h; cases h <;> simp [SameShape, hv])

theorem volumeBlock_shape (self s : GainController2 C) (p : Option F32)
    (h : (volumeBlock self p).result = Except.ok s) :
    SameShape s self ∧ s.calls_since_last_limiter_log_ = self.calls_since_last_limiter_log_ := by
  revert h
  rw [volumeBlock_eq]
  cases hi : self.input_volume_controller_ <;> cases ha : self.adaptive_digital_controller_ <;>
    cases p <;> (intro h; cases h <;> simp [SameShape, hi, ha])

theorem adaptiveBlock_shape (self : GainController2 C) (p : Option F32) (frame : C.Frame)
    (s : GainController2 C × C.Frame)
    (h : (adaptiveBlock self p frame).result = Except.ok s) :
    SameShape s.1 self ∧
      s.1.calls_since_last_limiter_log_ = self.calls_since_last_limiter_log_ := by
  revert h
  rw [adaptiveBlock_eq]
  cases ha : self.adaptive_digital_controller_ <;> cases p <;>
    (intro h; cases h <;> simp [SameShape, ha])

theorem outputBlock_shape (self : GainController2 C) (frame : C.Frame)
    (s : GainController2 C × C.Frame)
    (h : (outputBlock self frame).result = Except.ok s) :
    SameShape s.1 self ∧
      s.1.calls_since_last_limiter_log_ =
        (if self.calls_since_last_limiter_log_ + 1 = kLogLimiterStatsPeriodNumFrames then 0
          else self.calls_since_last_limiter_log_ + 1) := by
  revert h
  rw [outputBlock_eq]
  intro h
  cases h
  simp [SameShape]

theorem Process_frame (self : GainController2 C) (p : Option F32) (b : Bool)
    (audio : C.Frame) (r : GainController2 C × C.Frame)
    (h : (Process self p b audio).result = Except.ok r) :
    r.1.adaptive_digital_controller_.isSome = self.adaptive_digital_controller_.isSome ∧
    r.1.input_volume_controller_.isSome = self.input_volume_controller_.isSome ∧
    r.1.vad_.isSome = self.vad_.isSome ∧
    r.1.fixed_gain_applier_ = self.fixed_gain_applier_ ∧
    r.1.cpu_features_ = self.cpu_features_ ∧
    r.1.data_dumper_ = self.data_dumper_ ∧
    r.1.calls_since_last_limiter_log_ =
      (if self.calls_since_last_limiter_log_ + 1 = kLogLimiterStatsPeriodNumFrames then 0
        else self.calls_since_last_limiter_log_ + 1) ∧
    (Process self p b audio).kinds.count CallKind.log_limiter_stats =
      (if self.calls_since_last_limiter_log_ + 1 = kLogLimiterStatsPeriodNumFrames then 1
        else 0) := by
  obtain ⟨s1, sp, s3, sf, h1, h2, h3, h4, h5, -⟩ := Process_ok_blocks h
  obtain ⟨e1, c1⟩ := notifyBlock_shape self s1 b h1
  obtain ⟨e2, c2⟩ := probabilityBlock_shape s1 p audio sp h2
  obtain ⟨e3, c3⟩ := volumeBlock_shape sp.1 s3 sp.2 h3
  obtain ⟨e4, c4⟩ := adaptiveBlock_shape s3 sp.2 audio sf h4
  obtain ⟨e5, c5⟩ := outputBlock_shape sf.1 sf.2 r h5
  obtain ⟨g1, g2, g3, g4, g5, g6⟩ := e5.trans (e4.trans (e3.trans (e2.trans e1)))
  rw [c4, c3, c2, c1] at c5
  refine ⟨g1, g2, g3, g4, g5, g6, c5, ?_⟩
  have hc : (Process self p b audio).completes = true := (Exec.completes_iff _).2 ⟨r, h⟩
  rw [Process_completes_eq] at hc
  rw [Process_kinds_eq, processKinds_count_log _ _ _ _ _ _ hc]
  by_cases hk : self.calls_since_last_limiter_log_ + 1 = kLogLimiterStatsPeriodNumFrames <;>
    simp [hk]

theorem notifyBlock_applier (self : GainController2 C) (b : Bool) :
    (∀ s, (notifyBlock self b).result = Except.ok s →
      s.fixed_gain_applier_ = self.fixed_gain_applier_) ∧
    (notifyBlock self b).calls.filter
      (fun c => decide (c.kind = CallKind.applier_ApplyGain ∨
        c.kind = CallKind.limiter_Process)) = [] := by
  rw [notifyBlock_eq]
  cases b <;> cases self.adaptive_digital_controller_ <;>
    refine ⟨fun s hs => ?_, ?_⟩ <;> first | (cases hs; rfl) | rfl

theorem probabilityBlock_applier (self : GainController2 C) (p : Option F32) (frame : C.Frame) :
    (∀ s, (probabilityBlock self p frame).result = Except.ok s →
      s.1.fixed_gain_applier_ = self.fixed_gain_applier_) ∧
    (probabilityBlock self p frame).calls.filter
      (fun c => decide (c.kind = CallKind.applier_ApplyGain ∨
        c.kind = CallKind.limiter_Process)) = [] := by
  rw [probabilityBlock_eq]
  cases self.vad_ <;> rcases p with _ | x <;> dsimp only <;>
    (try (cases F32.ge x (F32.fin 0) <;> cases F32.le x (F32.fin 1) <;> dsimp only)) <;>
    refine ⟨fun s hs => ?_, ?_⟩ <;> first | (cases hs; rfl) | rfl | cases hs

theorem volumeBlock_applier (self : GainController2 C) (p : Option F32) :
    (∀ s, (volumeBlock self p).result = Except.ok s →
      s.fixed_gain_applier_ = self.fixed_gain_applier_) ∧
    (volumeBlock self p).calls.filter
      (fun c => decide (c.kind = CallKind.applier_ApplyGain ∨
        c.kind = CallKind.limiter_Process)) = [] := by
  rw [volumeBlock_eq]
  cases self.input_volume_controller_ <;> cases self.adaptive_digital_controller_ <;>
    cases p <;>
    refine ⟨fun s hs => ?_, ?_⟩ <;> first | (cases hs; rfl) | rfl | cases hs

theorem adaptiveBlock_applier (self : GainController2 C) (p : Option F32) (frame : C.Frame) :
    (∀ s, (adaptiveBlock self p frame).result = Except.ok s →
      s.1.fixed_gain_applier_ = self.fixed_gain_applier_) ∧
    (adaptiveBlock self p frame).calls.filter
      (fun c => decide (c.kind = CallKind.applier_ApplyGain ∨
        c.kind = CallKind.limiter_Process)) = [] := by
  rw [adaptiveBlock_eq]
  cases self.adaptive_digital_controller_ <;> cases p <;>
    refine ⟨fun s hs => ?_, ?_⟩ <;> first | (cases hs; rfl) | rfl | cases hs

theorem Process_calls_gain_limiter (self : GainController2 C) (p : Option F32) (b : Bool)
    (audio : C.Frame) (h : (Process self p b audio).completes = true) :
    ∃ frame : C.Frame,
      (Process self p b audio).calls.filter
          (fun c => decide (c.kind = CallKind.applier_ApplyGain ∨
            c.kind = CallKind.limiter_Process)) =
        [Call.applier_ApplyGain frame,
          Call.limiter_Process (self.fixed_gain_applier_.ApplyGain C frame)] := by
  obtain ⟨r, hr⟩ := (Exec.completes_iff _).1 h
  obtain ⟨s1, sp, s3, sf, h1, h2, h3, h4, _, hcalls⟩ := Process_ok_blocks hr
  have e1 := (notifyBlock_applier self b).1 s1 h1
  have e2 := (probabilityBlock_applier s1 p audio).1 sp h2
  have e3 := (volumeBlock_applier sp.1 sp.2).1 s3 h3
  have e4 := (adaptiveBlock_applier s3 sp.2 audio).1 sf h4
  refine ⟨sf.2, ?_⟩
  rw [hcalls, List.filter_append, List.filter_append, List.filter_append, List.filter_append,
    (notifyBlock_applier self b).2, (probabilityBlock_applier s1 p audio).2,
    (volumeBlock_applier sp.1 sp.2).2, (adaptiveBlock_applier s3 sp.2 audio).2, outputBlock_eq,
    ← e1, ← e2, ← e3, ← e4]
  by_cases hc : sf.1.calls_since_last_limiter_log_ + 1 = kLogLimiterStatsPeriodNumFrames <;>
    simp [Call.kind, hc]

/-! ## Sequences of calls -/

theorem runOp_ivc_isSome (self s : GainController2 C) (op : Op C)
    (h : (runOp self op).result = Except.ok s) :
    s.input_volume_controller_.isSome = self.input_volume_controller_.isSome := by
  cases op with
  | Analyze v buf =>
    revert h
    simp only [runOp, Analyze_eq]
    split_ifs
    · intro h; cases h
    · intro h; cases h
    · cases hi : self.input_volume_controller_ <;> (intro h; cases h; simp [hi])
  | Process p b audio =>
    obtain ⟨r, hr, h⟩ := Exec.andThen_result_ok (show (Exec.andThen
      (Process self p b audio) fun r => pure r.1).result = Except.ok s from h)
    cases h
    exact (Process_frame self p b audio r hr).2.1
  | SetFixedGainDb x =>
    revert h
    simp only [runOp, SetFixedGainDb_eq]
    split_ifs <;> (intro h; cases h; rfl)
  | SetCaptureOutputUsed b =>
    revert h
    simp only [runOp, SetCaptureOutputUsed_eq]
    cases hi : self.input_volume_controller_ <;> (intro h; cases h; simp [hi])

theorem runOps_ivc_isSome (ops : List (Op C)) :
    ∀ (self s : GainController2 C), (runOps self ops).result = Except.ok s →
      s.input_volume_controller_.isSome = self.input_volume_controller_.isSome := by
  induction ops with
  | nil =>
    intro self s h
    cases h
    rfl
  | cons op rest ih =>
    intro self s h
    obtain ⟨s1, h1, h2⟩ := Exec.andThen_result_ok (show (Exec.andThen
      (runOp self op) fun s1 => runOps s1 rest).result = Except.ok s from h)
    rw [ih s1 s h2, runOp_ivc_isSome self s1 op h1]

theorem processAll_counter (inputs : List (ProcessArgs C)) :
    ∀ (self s : GainController2 C),
      0 ≤ self.calls_since_last_limiter_log_ →
      self.calls_since_last_limiter_log_ < 3000 →
      (processAll self inputs).result = Except.ok s →
      ((processAll self inputs).kinds.count CallKind.log_limiter_stats : Int) =
          (self.calls_since_last_limiter_log_ + inputs.length) / 3000 ∧
        s.calls_since_last_limiter_log_ =
          (self.calls_since_last_limiter_log_ + inputs.length) % 3000 := by
  induction inputs with
  | nil =>
    intro self s h0 h1 h
    cases h
    simp only [processAll, Exec.pure_eq, Exec.kinds, List.map_nil, List.count_nil,
      List.length_nil]
    constructor <;> omega
  | cons a rest ih =>
    intro self s h0 h1 h
    have hdef : processAll self (a :: rest) =
        Exec.andThen (Process self a.speech_probability a.input_volume_changed a.audio)
          (fun r => processAll r.1 rest) := rfl
    rw [hdef] at h ⊢
    obtain ⟨r, hr, h2⟩ := Exec.andThen_result_ok h
    have hf := Process_frame self _ _ _ r hr
    obtain ⟨-, -, -, -, -, -, hcnt, hlog⟩ := hf
    have hk : kLogLimiterStatsPeriodNumFrames = 3000 := by decide
    rw [hk] at hcnt hlog
    rw [Exec.kinds_andThen_of_ok hr, List.count_append, List.length_cons]
    by_cases hc : self.calls_since_last_limiter_log_ + 1 = 3000
    · rw [if_pos hc] at hcnt hlog
      have := ih r.1 s (by omega) (by omega) h2
      rw [hcnt] at this
      rw [hlog]
      push_cast
      omega
    · rw [if_neg hc] at hcnt hlog
      have := ih r.1 s (by omega) (by omega) h2
      rw [hcnt] at this
      rw [hlog]
      push_cast
      omega

theorem processAll_completes (inputs : List (ProcessArgs C)) :
    ∀ self : GainController2 C,
      self.adaptive_digital_controller_ = none → self.input_volume_controller_ = none →
      (∀ a ∈ inputs, a.speech_probability = none) →
      (processAll self inputs).completes = true := by
  induction inputs with
  | nil => intro self _ _ _; rfl
  | cons a rest ih =>
    intro self had hivc hp
    have hdef : processAll self (a :: rest) =
        Exec.andThen (Process self a.speech_probability a.input_volume_changed a.audio)
          (fun r => processAll r.1 rest) := rfl
    have hc : (Process self a.speech_probability a.input_volume_changed a.audio).completes =
        true := by
      rw [Process_completes_eq, had, hivc, hp a (List.mem_cons_self _ _)]
      cases self.vad_ <;> rfl
    obtain ⟨r, hr⟩ := (Exec.completes_iff _).1 hc
    have hf := Process_frame self _ _ _ r hr
    have h1 : r.1.adaptive_digital_controller_ = none := by
      have := hf.1
      rw [had] at this
      cases hx : r.1.adaptive_digital_controller_ with
      | none => rfl
      | some v => simp [hx] at this
    have h2 : r.1.input_volume_controller_ = none := by
      have := hf.2.1
      rw [hivc] at this
      cases hx : r.1.input_volume_controller_ with
      | none => rfl
      | some v => simp [hx] at this
    have := ih r.1 h1 h2 (fun a ha => hp a (List.mem_cons_of_mem _ ha))
    rw [hdef, Exec.andThen_of_ok hr]
    simpa [Exec.completes] using this

end GainController2

end webrtc

namespace webrtc

open GainController2

/-! ## The concrete environment -/

theorem simpleEnv_factor_ne :
    F32.ne (DbToRatio simpleEnv.pow10 (F32.fin 20)) (DbToRatio simpleEnv.pow10 (F32.fin 0)) =
      true := by
  decide

theorem simpleEnv_plain_run_completes (n : Nat) :
    (processAll (simpleInstance 6 false false false)
      (List.replicate n ⟨none, false, [F32.fin 1]⟩)).completes = true :=
  processAll_completes _ _ rfl rfl (fun a ha => by rw [List.eq_of_mem_replicate ha])

/-! ## Configuration validation and construction -/

/-- C1: `Validate` returns true exactly when the six bounds hold, read as the
C++ comparisons they are (first part) and spelled out on the values (second
part: the fixed gain is a finite number in `[0, 50)`, the headroom, the maximum
gain, the initial gain and the maximum gain change are `+∞` or finite numbers
that are non-negative, positive, non-negative and positive, the maximum output
noise level is `-∞` or a finite number that is at most zero; NaN satisfies no
bound).  Two configurations with the same six numbers get the same answer,
whatever their `enabled` flags and `vad_reset_period_ms` (third part). -/
theorem Validate_iff_bounds (config : Agc2Config) :
    (Validate config = true ↔
      F32.le (F32.fin 0) config.fixed_digital.gain_db = true ∧
      F32.lt config.fixed_digital.gain_db (F32.fin 50) = true ∧
      F32.le (F32.fin 0) config.adaptive_digital.headroom_db = true ∧
      F32.lt (F32.fin 0) config.adaptive_digital.max_gain_db = true ∧
      F32.le (F32.fin 0) config.adaptive_digital.initial_gain_db = true ∧
      F32.lt (F32.fin 0) config.adaptive_digital.max_gain_change_db_per_second = true ∧
      F32.le config.adaptive_digital.max_output_noise_level_dbfs (F32.fin 0) = true) ∧
    (Validate config = true ↔
      (∃ g : ℚ, config.fixed_digital.gain_db = F32.fin g ∧ 0 ≤ g ∧ g < 50) ∧
      (config.adaptive_digital.headroom_db = F32.posInf ∨
        ∃ h : ℚ, config.adaptive_digital.headroom_db = F32.fin h ∧ 0 ≤ h) ∧
      (config.adaptive_digital.max_gain_db = F32.posInf ∨
        ∃ m : ℚ, config.adaptive_digital.max_gain_db = F32.fin m ∧ 0 < m) ∧
      (config.adaptive_digital.initial_gain_db = F32.posInf ∨
        ∃ i : ℚ, config.adaptive_digital.initial_gain_db = F32.fin i ∧ 0 ≤ i) ∧
      (config.adaptive_digital.max_gain_change_db_per_second = F32.posInf ∨
        ∃ r : ℚ, config.adaptive_digital.max_gain_change_db_per_second = F32.fin r ∧ 0 < r) ∧
      (config.adaptive_digital.max_output_noise_level_dbfs = F32.negInf ∨
        ∃ n : ℚ, config.adaptive_digital.max_output_noise_level_dbfs = F32.fin n ∧ n ≤ 0)) ∧
    (∀ other : Agc2Config,
      other.fixed_digital.gain_db = config.fixed_digital.gain_db →
      other.adaptive_digital.headroom_db = config.adaptive_digital.headroom_db →
      other.adaptive_digital.max_gain_db = config.adaptive_digital.max_gain_db →
      other.adaptive_digital.initial_gain_db = config.adaptive_digital.initial_gain_db →
      other.adaptive_digital.max_gain_change_db_per_second =
        config.adaptive_digital.max_gain_change_db_per_second →
      other.adaptive_digital.max_output_noise_level_dbfs =
        config.adaptive_digital.max_output_noise_level_dbfs →
      Validate other = Validate config) := by
  refine ⟨?_, ?_, ?_⟩
  · simp only [Validate, Bool.and_eq_true, and_assoc, F32.ge, F32.gt]
  · simp only [Validate, Bool.and_eq_true, and_assoc]
    rw [← and_assoc, F32.ge_zero_lt_fifty_iff, F32.ge_zero_iff, F32.gt_zero_iff,
      F32.ge_zero_iff, F32.gt_zero_iff, F32.le_zero_iff]
  · intro other h1 h2 h3 h4 h5 h6
    simp only [Validate, h1, h2, h3, h4, h5, h6]

/-- C2: for a configuration that `Validate` rejects, whatever the sample rate,
the channel count and the flag `use_internal_vad`, the constructor stops on the
assertion on the configuration: it returns no instance, and it stops before any
member function of a sub-component or of the dumper has been called. -/
theorem create_rejects_invalid_config (C : Collaborators) (instance_count : Int)
    (config : Agc2Config) (input_volume_controller_config : C.InputVolumeControllerConfig)
    (sample_rate_hz num_channels : Int) (use_internal_vad : Bool)
    (h : Validate config = false) :
    (create C instance_count config input_volume_controller_config sample_rate_hz
        num_channels use_internal_vad).result = Except.error Fatal.validate_config ∧
    (create C instance_count config input_volume_controller_config sample_rate_hz
        num_channels use_internal_vad).completes = false ∧
    (create C instance_count config input_volume_controller_config sample_rate_hz
        num_channels use_internal_vad).calls = [] := by
  simp [create, h, Exec.bind_eq, Exec.completes]

theorem create_rejects_invalid_config_witness :
    Validate (sampleConfig 50 true true) = false ∧
    (create simpleEnv 0 (sampleConfig 50 true true) () 48000 1 true).result =
      Except.error Fatal.validate_config :=
  ⟨by decide,
    (create_rejects_invalid_config simpleEnv 0 (sampleConfig 50 true true) () 48000 1 true
      (by decide)).1⟩

/-- C3: for a configuration that `Validate` accepts and either value of
`use_internal_vad`, the constructor returns an instance; in it the adaptive
digital controller is present iff `adaptive_digital.enabled`, the input volume
controller is present iff `input_volume_controller.enabled` and is then the
freshly created controller after one `Initialize`, which is called once during
construction and not at all otherwise, and the voice activity detector is
present iff `adaptive_digital.enabled` and `use_internal_vad` both hold. -/
theorem create_activates_sub_components (C : Collaborators) (instance_count : Int)
    (config : Agc2Config) (input_volume_controller_config : C.InputVolumeControllerConfig)
    (sample_rate_hz num_channels : Int) (use_internal_vad : Bool)
    (h : Validate config = true) :
    ∃ self : GainController2 C,
      (create C instance_count config input_volume_controller_config sample_rate_hz
        num_channels use_internal_vad).result = Except.ok self ∧
      self.adaptive_digital_controller_.isSome = config.adaptive_digital.enabled ∧
      self.input_volume_controller_.isSome = config.input_volume_controller.enabled ∧
      self.vad_.isSome = (config.adaptive_digital.enabled && use_internal_vad) ∧
      self.input_volume_controller_ =
        (if config.input_volume_controller.enabled = true then
          some (C.ivc_Initialize (C.ivc_new num_channels input_volume_controller_config))
        else none) ∧
      (create C instance_count config input_volume_controller_config sample_rate_hz
        num_channels use_internal_vad).kinds.count CallKind.ivc_Initialize =
        (if config.input_volume_controller.enabled = true then 1 else 0) := by
  rw [create_eq_of_valid C _ _ _ _ _ _ h]
  refine ⟨_, rfl, ?_, ?_, ?_, rfl, ?_⟩
  · cases config.adaptive_digital.enabled <;> rfl
  · cases config.input_volume_controller.enabled <;> rfl
  · cases config.adaptive_digital.enabled <;> cases use_internal_vad <;> rfl
  · cases config.input_volume_controller.enabled <;> rfl

theorem create_activates_sub_components_witness :
    Validate (sampleConfig 6 true true) = true ∧
    ∃ self : GainController2 simpleEnv,
      (create simpleEnv 0 (sampleConfig 6 true true) () 48000 1 false).result =
        Except.ok self ∧
      self.adaptive_digital_controller_.isSome = true ∧
      self.input_volume_controller_.isSome = true ∧
      self.vad_.isSome = false :=
  ⟨by decide,
    (create_activates_sub_components simpleEnv 0 (sampleConfig 6 true true) () 48000 1 false
      (by decide)).imp fun _ hs => ⟨hs.1, hs.2.1, hs.2.2.1, hs.2.2.2.1⟩⟩

/-! ## The fixed gain -/

/-- C4, as stated, fails: setting the fixed gain to NaN twice resets the
limiter on the second call as well, because the stored factor is NaN and NaN
compares unequal to itself; the limiter state after the second call differs
from the one after the first. -/
theorem SetFixedGainDb_twice_nan_resets :
    ¬ ∀ (C : Collaborators) (self afterFirst : GainController2 C) (x : F32),
      (SetFixedGainDb self x).result = Except.ok afterFirst →
      (SetFixedGainDb afterFirst x).kinds.count CallKind.limiter_Reset = 0 ∧
      (SetFixedGainDb afterFirst x).result = Except.ok afterFirst := by
  intro h
  have h1 := (h simpleEnv (simpleInstance 6 false false false)
    { simpleInstance 6 false false false with
      limiter_ := (⟨1, F32.fin 0, 0⟩ : SimpleLimiter)
      fixed_gain_applier_ := ⟨false, F32.nan⟩ } F32.nan rfl).1
  revert h1
  decide

/-- C4, amended: for every instance state and every gain `x` other than NaN,
the first `SetFixedGainDb x` returns, and a second `SetFixedGainDb x` on the
instance it returns reads the factor and stores it again, without a limiter
reset, and returns that same instance. -/
theorem SetFixedGainDb_twice_no_reset {C : Collaborators} (self : GainController2 C)
    (x : F32) (hx : x ≠ F32.nan) :
    ∃ afterFirst : GainController2 C,
      (SetFixedGainDb self x).result = Except.ok afterFirst ∧
      (SetFixedGainDb afterFirst x).result = Except.ok afterFirst ∧
      (SetFixedGainDb afterFirst x).calls =
        [Call.applier_GetGainFactor, Call.applier_SetGainFactor (DbToRatio C.pow10 x)] ∧
      (SetFixedGainDb afterFirst x).kinds.count CallKind.limiter_Reset = 0 := by
  have hnan : (DbToRatio C.pow10 x).isNan = false := by
    rw [DbToRatio_isNan]
    cases x <;> simp [F32.isNan] at hx ⊢
  have hself : F32.ne (DbToRatio C.pow10 x) (DbToRatio C.pow10 x) = false := by
    rw [F32.ne_self, hnan]
  refine ⟨{ self with
      limiter_ := if F32.ne self.fixed_gain_applier_.GetGainFactor (DbToRatio C.pow10 x) = true
        then C.limiter_Reset self.limiter_ else self.limiter_
      fixed_gain_applier_ := self.fixed_gain_applier_.SetGainFactor (DbToRatio C.pow10 x) },
    ?_, ?_, ?_, ?_⟩
  · rw [SetFixedGainDb_eq]
    split_ifs <;> rfl
  all_goals
    rw [SetFixedGainDb_eq]
    simp [GainApplier.GetGainFactor, GainApplier.SetGainFactor, hself, Exec.kinds, Call.kind]

theorem SetFixedGainDb_twice_no_reset_witness :
    F32.fin 6 ≠ F32.nan ∧
    ∃ afterFirst : GainController2 simpleEnv,
      (SetFixedGainDb (simpleInstance 0 true true true) (F32.fin 6)).result =
        Except.ok afterFirst ∧
      (SetFixedGainDb afterFirst (F32.fin 6)).result = Except.ok afterFirst ∧
      (SetFixedGainDb afterFirst (F32.fin 6)).kinds.count CallKind.limiter_Reset = 0 :=
  ⟨by decide,
    (SetFixedGainDb_twice_no_reset (simpleInstance 0 true true true) (F32.fin 6)
      (by decide)).imp fun _ hs => ⟨hs.1, hs.2.1, hs.2.2.2⟩⟩

/-- C5, as stated, fails: two different dB values can give the same factor.
After `SetFixedGainDb 2000` the factor is `+∞`; `SetFixedGainDb 1000` computes
`+∞` again and does not reset the limiter. -/
theorem SetFixedGainDb_distinct_db_same_factor :
    ¬ ∀ (C : Collaborators) (self afterFirst : GainController2 C) (x y : F32), x ≠ y →
      (SetFixedGainDb self y).result = Except.ok afterFirst →
      (SetFixedGainDb afterFirst x).kinds.count CallKind.limiter_Reset = 1 := by
  intro h
  have h1 := h simpleEnv (simpleInstance 6 false false false)
    { simpleInstance 6 false false false with
      limiter_ := (⟨1, F32.fin 0, 0⟩ : SimpleLimiter)
      fixed_gain_applier_ := ⟨false, F32.posInf⟩ } (F32.fin 1000) (F32.fin 2000)
    (by decide) rfl
  revert h1
  decide

/-- C5, amended: for every instance whose fixed gain factor is the one of the
dB value `y` (as it is after construction from a configuration with fixed gain
`y`, `create_gain_factor`, and after `SetFixedGainDb y`,
`SetFixedGainDb_gain_factor`) and every dB value `x` whose factor compares
unequal to it, `SetFixedGainDb x` reads the factor, resets the limiter and then
stores the new factor, in that order, so that there is exactly one reset and it
precedes the store; the instance returned has the reset limiter and the new
factor. -/
theorem SetFixedGainDb_resets_once {C : Collaborators} (self : GainController2 C)
    (x y : F32)
    (hy : self.fixed_gain_applier_.GetGainFactor = DbToRatio C.pow10 y)
    (hne : F32.ne (DbToRatio C.pow10 y) (DbToRatio C.pow10 x) = true) :
    (SetFixedGainDb self x).calls =
      [Call.applier_GetGainFactor, Call.limiter_Reset,
        Call.applier_SetGainFactor (DbToRatio C.pow10 x)] ∧
    (SetFixedGainDb self x).kinds.count CallKind.limiter_Reset = 1 ∧
    (SetFixedGainDb self x).result =
      Except.ok { self with
        limiter_ := C.limiter_Reset self.limiter_
        fixed_gain_applier_ := self.fixed_gain_applier_.SetGainFactor (DbToRatio C.pow10 x) } := by
  rw [SetFixedGainDb_eq, hy, if_pos hne]
  simp [Exec.kinds, Call.kind]

theorem SetFixedGainDb_resets_once_witness :
    (create simpleEnv 0 (sampleConfig 20 false false) () 48000 1 false).result =
      Except.ok (simpleInstance 20 false false false) ∧
    (simpleInstance 20 false false false).fixed_gain_applier_.GetGainFactor =
      DbToRatio simpleEnv.pow10 (F32.fin 20) ∧
    F32.ne (DbToRatio simpleEnv.pow10 (F32.fin 20)) (DbToRatio simpleEnv.pow10 (F32.fin 0)) =
      true ∧
    (SetFixedGainDb (simpleInstance 20 false false false) (F32.fin 0)).kinds.count
      CallKind.limiter_Reset = 1 :=
  ⟨rfl, rfl, simpleEnv_factor_ne,
    (SetFixedGainDb_resets_once (simpleInstance 20 false false false) (F32.fin 0) (F32.fin 20)
      rfl simpleEnv_factor_ne).2.1⟩

/-! ## The recommended input volume -/

/-- C6: after any finite sequence of calls of `Analyze`, `Process`,
`SetFixedGainDb` and `SetCaptureOutputUsed` that all return, made on an
instance without an input volume controller, `GetRecommendedInputVolume` calls
nothing and returns no recommendation; on an instance with an input volume
controller it returns the level that controller recommends at that moment; in
both cases the instance is as it was before the call. -/
theorem GetRecommendedInputVolume_after_calls {C : Collaborators}
    (self s : GainController2 C) (ops : List (Op C))
    (h : (runOps self ops).result = Except.ok s) :
    (self.input_volume_controller_ = none →
      GetRecommendedInputVolume s = ⟨[], Except.ok (s, none)⟩) ∧
    (∀ ivc : C.InputVolumeController, s.input_volume_controller_ = some ivc →
      GetRecommendedInputVolume s =
        ⟨[Call.ivc_recommended_analog_level],
          Except.ok (s, some (C.ivc_recommended_analog_level ivc))⟩) := by
  constructor
  · intro hnone
    have hs := runOps_ivc_isSome ops self s h
    rw [hnone] at hs
    have : s.input_volume_controller_ = none := by
      cases hi : s.input_volume_controller_ with
      | none => rfl
      | some v => simp [hi] at hs
    rw [GetRecommendedInputVolume_eq, this]
  · intro ivc hi
    rw [GetRecommendedInputVolume_eq, hi]

theorem GetRecommendedInputVolume_after_calls_witness :
    (runOps (simpleInstance 20 false false false)
      [Op.Analyze 100 [F32.fin 1], Op.Process none false [F32.fin 1],
        Op.SetFixedGainDb (F32.fin 0), Op.SetCaptureOutputUsed true]).result =
      Except.ok
        { simpleInstance 0 false false false with
          limiter_ := (⟨1, F32.fin 0, 1⟩ : SimpleLimiter)
          calls_since_last_limiter_log_ := 1 } ∧
    (GetRecommendedInputVolume
      { simpleInstance 0 false false false with
        limiter_ := (⟨1, F32.fin 0, 1⟩ : SimpleLimiter)
        calls_since_last_limiter_log_ := 1 }).result =
      Except.ok
        ({ simpleInstance 0 false false false with
            limiter_ := (⟨1, F32.fin 0, 1⟩ : SimpleLimiter)
            calls_since_last_limiter_log_ := 1 }, none) :=
  ⟨rfl,
    congrArg Exec.result
      ((GetRecommendedInputVolume_after_calls (simpleInstance 20 false false false) _
        [Op.Analyze 100 [F32.fin 1], Op.Process none false [F32.fin 1],
          Op.SetFixedGainDb (F32.fin 0), Op.SetCaptureOutputUsed true] rfl).1 rfl)⟩

/-! ## The periodic log of the limiter statistics -/

/-- C7: on a freshly constructed instance, after `n` calls of `Process` that
all return (`n` is the length of `inputs`, the arguments of the calls are
arbitrary), the limiter statistics have been logged `n / 3000` times and the
frame counter is `n mod 3000`, hence in `[0, 3000)` and `0` right after each
log; 3000, 5999 and 6000 calls give 1, 1 and 2 logs. -/
theorem Process_limiter_stats_period (C : Collaborators) (instance_count : Int)
    (config : Agc2Config) (input_volume_controller_config : C.InputVolumeControllerConfig)
    (sample_rate_hz num_channels : Int) (use_internal_vad : Bool)
    (fresh s : GainController2 C) (inputs : List (ProcessArgs C))
    (hfresh : (create C instance_count config input_volume_controller_config sample_rate_hz
      num_channels use_internal_vad).result = Except.ok fresh)
    (hs : (processAll fresh inputs).result = Except.ok s) :
    (processAll fresh inputs).kinds.count CallKind.log_limiter_stats = inputs.length / 3000 ∧
    s.calls_since_last_limiter_log_ = ((inputs.length % 3000 : Nat) : Int) ∧
    (0 ≤ s.calls_since_last_limiter_log_ ∧
      s.calls_since_last_limiter_log_ < kLogLimiterStatsPeriodNumFrames) ∧
    (inputs.length = 3000 →
      (processAll fresh inputs).kinds.count CallKind.log_limiter_stats = 1) ∧
    (inputs.length = 5999 →
      (processAll fresh inputs).kinds.count CallKind.log_limiter_stats = 1) ∧
    (inputs.length = 6000 →
      (processAll fresh inputs).kinds.count CallKind.log_limiter_stats = 2) := by
  have h0 : fresh.calls_since_last_limiter_log_ = 0 := by
    by_cases hv : Validate config = true
    · rw [create_eq_of_valid C _ _ _ _ _ _ hv] at hfresh
      cases hfresh
      rfl
    · have hv2 : Validate config = false := by simpa using hv
      revert hfresh
      simp [create, hv2, Exec.bind_eq]
  have h := processAll_counter inputs fresh s (by omega) (by omega) hs
  rw [h0] at h
  obtain ⟨h1, h2⟩ := h
  have hk : kLogLimiterStatsPeriodNumFrames = 3000 := by decide
  rw [hk]
  have hcnt : (processAll fresh inputs).kinds.count CallKind.log_limiter_stats =
      inputs.length / 3000 := by omega
  refine ⟨hcnt, by omega, ⟨by omega, by omega⟩, ?_, ?_, ?_⟩ <;> intro hl <;> omega

theorem Process_limiter_stats_period_witness :
    (create simpleEnv 0 (sampleConfig 6 false false) () 48000 1 false).result =
      Except.ok (simpleInstance 6 false false false) ∧
    (processAll (simpleInstance 6 false false false)
        (List.replicate 6000 ⟨none, false, [F32.fin 1]⟩)).completes = true ∧
    (processAll (simpleInstance 6 false false false)
        (List.replicate 6000 ⟨none, false, [F32.fin 1]⟩)).kinds.count
      CallKind.log_limiter_stats = 2 :=
  ⟨rfl, simpleEnv_plain_run_completes 6000,
    (Process_limiter_stats_period simpleEnv 0 (sampleConfig 6 false false) () 48000 1 false
      (simpleInstance 6 false false false) _ (List.replicate 6000 ⟨none, false, [F32.fin 1]⟩)
      rfl (Exec.result_of_completes (simpleEnv_plain_run_completes 6000)
        (simpleInstance 6 false false false))).2.2.2.2.2 (List.length_replicate _ _)⟩

/-! ## The order of the calls made by `Process` -/

/-- C8: in every call of `Process`, `HandleInputGainChange` is called once when
`input_volume_changed` is true and the adaptive digital controller is present,
and not at all otherwise; when it is called and `Process` returns, the calls to
the adaptive digital controller's `HandleInputGainChange` and `Process` are
exactly these two, in this order. -/
theorem Process_HandleInputGainChange_order {C : Collaborators} (self : GainController2 C)
    (p : Option F32) (b : Bool) (audio : C.Frame) :
    (Process self p b audio).kinds.count CallKind.adaptive_HandleInputGainChange =
        (if (b && self.adaptive_digital_controller_.isSome) = true then 1 else 0) ∧
    ((Process self p b audio).completes = true → b = true →
      self.adaptive_digital_controller_.isSome = true →
      (Process self p b audio).kinds.filter
          (fun k => decide (k = CallKind.adaptive_HandleInputGainChange ∨
            k = CallKind.adaptive_Process)) =
        [CallKind.adaptive_HandleInputGainChange, CallKind.adaptive_Process]) := by
  rw [Process_kinds_eq, Process_completes_eq]
  generalize self.adaptive_digital_controller_.isSome = ad
  generalize self.input_volume_controller_.isSome = ivc
  generalize self.vad_.isSome = vad
  generalize Option.map inUnitRange p = q
  generalize decide (self.calls_since_last_limiter_log_ + 1 = kLogLimiterStatsPeriodNumFrames) = e
  revert ad ivc vad q e b
  decide

theorem Process_HandleInputGainChange_order_witness :
    (Process (simpleInstance 6 true true false) (some (F32.fin 1)) true
      [F32.fin 1]).completes = true ∧
    (simpleInstance 6 true true false).adaptive_digital_controller_.isSome = true ∧
    (Process (simpleInstance 6 true true false) (some (F32.fin 1)) true
      [F32.fin 1]).kinds.filter
        (fun k => decide (k = CallKind.adaptive_HandleInputGainChange ∨
          k = CallKind.adaptive_Process)) =
      [CallKind.adaptive_HandleInputGainChange, CallKind.adaptive_Process] :=
  ⟨by decide, rfl,
    (Process_HandleInputGainChange_order (simpleInstance 6 true true false)
      (some (F32.fin 1)) true [F32.fin 1]).2 (by decide) rfl rfl⟩

/-- C9, as stated, fails: on an instance built from a valid configuration with
the adaptive digital controller and without internal voice activity detector,
`Process` called without a speech probability stops on an assertion before the
fixed gain and the limiter have run. -/
theorem Process_aborts_before_gain :
    Validate (sampleConfig 6 true false) = true ∧
    (create simpleEnv 0 (sampleConfig 6 true false) () 48000 1 false).result =
      Except.ok (simpleInstance 6 true false false) ∧
    (Process (simpleInstance 6 true false false) none false [F32.fin 1]).result =
      Except.error Fatal.speech_probability_has_value_for_adaptive_digital_controller ∧
    (Process (simpleInstance 6 true false false) none false [F32.fin 1]).kinds.count
      CallKind.applier_ApplyGain = 0 ∧
    (Process (simpleInstance 6 true false false) none false [F32.fin 1]).kinds.count
      CallKind.limiter_Process = 0 :=
  ⟨by decide, rfl, rfl, by decide, by decide⟩

/-- C9, amended: in every call of `Process` that returns, whatever
sub-components are present and whatever the arguments, the calls to the fixed
gain applier's `ApplyGain` and to the limiter's `Process` are exactly two:
`ApplyGain` on a frame, then the limiter on that frame with the fixed gain
applied; a call of `Process` that stops on an assertion makes neither. -/
theorem Process_gain_then_limiter {C : Collaborators} (self : GainController2 C)
    (p : Option F32) (b : Bool) (audio : C.Frame) :
    ((Process self p b audio).completes = true →
      ∃ frame : C.Frame,
        (Process self p b audio).calls.filter
            (fun c => decide (c.kind = CallKind.applier_ApplyGain ∨
              c.kind = CallKind.limiter_Process)) =
          [Call.applier_ApplyGain frame,
            Call.limiter_Process (self.fixed_gain_applier_.ApplyGain C frame)]) ∧
    ((Process self p b audio).completes = false →
      (Process self p b audio).kinds.filter
          (fun k => decide (k = CallKind.applier_ApplyGain ∨ k = CallKind.limiter_Process)) =
        []) := by
  refine ⟨Process_calls_gain_limiter self p b audio, ?_⟩
  rw [Process_kinds_eq, Process_completes_eq]
  generalize self.adaptive_digital_controller_.isSome = ad
  generalize self.input_volume_controller_.isSome = ivc
  generalize self.vad_.isSome = vad
  generalize Option.map inUnitRange p = q
  generalize decide (self.calls_since_last_limiter_log_ + 1 = kLogLimiterStatsPeriodNumFrames) = e
  revert ad ivc vad q e b
  decide

theorem Process_gain_then_limiter_witness :
    (Process (simpleInstance 6 true true true) none true [F32.fin 1]).completes = true ∧
    ∃ frame : List F32,
      (Process (simpleInstance 6 true true true) none true [F32.fin 1]).calls.filter
          (fun c => decide (c.kind = CallKind.applier_ApplyGain ∨
            c.kind = CallKind.limiter_Process)) =
        [Call.applier_ApplyGain frame,
          Call.limiter_Process
            ((simpleInstance 6 true true true).fixed_gain_applier_.ApplyGain simpleEnv frame)] :=
  ⟨by decide,
    (Process_gain_then_limiter (simpleInstance 6 true true true) none true [F32.fin 1]).1
      (by decide)⟩

/-! ## Absent sub-components -/

/-- Every call site but one treats an absent sub-component as a no-op, on every
instance.  `SetCaptureOutputUsed`, `SetFixedGainDb`, `GetRecommendedInputVolume`
and `Analyze` with a volume in `[0, 255]` return whatever is absent; without an
input volume controller the first, the third and the fourth call nothing and
leave the instance as it is.  `Process` calls no member function of an absent
input volume controller, of an absent adaptive digital controller or of an
absent voice activity detector.  With a speech probability in `[0, 1]`,
`Process` returns unless the input volume controller is present and the
adaptive digital controller is absent. -/
theorem absent_call_sites_skipped {C : Collaborators} (self : GainController2 C) :
    ((∀ b : Bool, (SetCaptureOutputUsed self b).completes = true) ∧
      (∀ x : F32, (SetFixedGainDb self x).completes = true) ∧
      (GetRecommendedInputVolume self).completes = true ∧
      (∀ (v : Int) (buf : C.Frame), 0 ≤ v → v ≤ 255 →
        (Analyze self v buf).completes = true)) ∧
    (self.input_volume_controller_ = none →
      (∀ b : Bool, SetCaptureOutputUsed self b = ⟨[], Except.ok self⟩) ∧
      GetRecommendedInputVolume self = ⟨[], Except.ok (self, none)⟩ ∧
      (∀ (v : Int) (buf : C.Frame), 0 ≤ v → v ≤ 255 →
        Analyze self v buf = ⟨[], Except.ok self⟩) ∧
      (∀ (p : Option F32) (b : Bool) (audio : C.Frame),
        (Process self p b audio).kinds.count CallKind.ivc_Process = 0)) ∧
    (self.adaptive_digital_controller_ = none →
      ∀ (p : Option F32) (b : Bool) (audio : C.Frame),
        (Process self p b audio).kinds.filter
          (fun k => decide (k = CallKind.adaptive_HandleInputGainChange ∨
            k = CallKind.adaptive_GetSpeechLevelDbfsIfConfident ∨
            k = CallKind.adaptive_Process)) = []) ∧
    (self.vad_ = none →
      ∀ (p : Option F32) (b : Bool) (audio : C.Frame),
        (Process self p b audio).kinds.count CallKind.vad_Analyze = 0) ∧
    (∀ (x : F32) (b : Bool) (audio : C.Frame), inUnitRange x = true →
      (Process self (some x) b audio).completes =
        !(self.input_volume_controller_.isSome &&
          !self.adaptive_digital_controller_.isSome)) := by
  refine ⟨⟨?_, ?_, ?_, ?_⟩, ?_, ?_, ?_, ?_⟩
  · intro b
    rw [SetCaptureOutputUsed_eq]
    split <;> rfl
  · intro x
    rw [SetFixedGainDb_eq]
    split_ifs <;> rfl
  · rw [GetRecommendedInputVolume_eq]
    split <;> rfl
  · intro v buf h0 h255
    rw [Analyze_eq, if_neg (by omega), if_neg (by omega)]
    split <;> rfl
  · intro hi
    refine ⟨?_, ?_, ?_, ?_⟩
    · intro b
      rw [SetCaptureOutputUsed_eq]
      simp [hi]
    · rw [GetRecommendedInputVolume_eq]
      simp [hi]
    · intro v buf h0 h255
      rw [Analyze_eq, if_neg (by omega), if_neg (by omega)]
      simp [hi]
    · intro p b audio
      rw [Process_kinds_eq, hi]
      simp only [Option.isSome_none]
      generalize self.adaptive_digital_controller_.isSome = ad
      generalize self.vad_.isSome = vad
      generalize Option.map inUnitRange p = q
      generalize decide (self.calls_since_last_limiter_log_ + 1 =
        kLogLimiterStatsPeriodNumFrames) = e
      revert ad vad q e b
      decide
  · intro ha p b audio
    rw [Process_kinds_eq, ha]
    simp only [Option.isSome_none]
    generalize self.input_volume_controller_.isSome = ivc
    generalize self.vad_.isSome = vad
    generalize Option.map inUnitRange p = q
    generalize decide (self.calls_since_last_limiter_log_ + 1 =
      kLogLimiterStatsPeriodNumFrames) = e
    revert ivc vad q e b
    decide
  · intro hv p b audio
    rw [Process_kinds_eq, hv]
    simp only [Option.isSome_none]
    generalize self.input_volume_controller_.isSome = ivc
    generalize self.adaptive_digital_controller_.isSome = ad
    generalize Option.map inUnitRange p = q
    generalize decide (self.calls_since_last_limiter_log_ + 1 =
      kLogLimiterStatsPeriodNumFrames) = e
    revert ivc ad q e b
    decide
  · intro x b audio hx
    rw [Process_completes_eq]
    simp only [Option.map_some', hx]
    cases self.adaptive_digital_controller_.isSome <;>
      cases self.input_volume_controller_.isSome <;> cases self.vad_.isSome <;> rfl

/-- C10: the code at the failing input.  The configuration
`sampleConfig 6 false true` passes `Validate` and enables the input volume
controller without the adaptive digital controller; the constructor returns an
instance with the first present and the second absent.  On it, `Process` called
with the speech probability 1 stops on `RTC_DCHECK(adaptive_digital_controller_)`
and never calls the input volume controller's `Process`, so no speech level, not
even the empty one, is handed to it.  With the flag `input_volume_changed` set
the calls made before the stop are the two dumps only: the call site of the
notification, which also depends on the absent adaptive digital controller, is
skipped. -/
theorem Process_aborts_without_adaptive_controller :
    Validate (sampleConfig 6 false true) = true ∧
    (create simpleEnv 0 (sampleConfig 6 false true) () 48000 1 false).result =
      Except.ok (simpleInstance 6 false true false) ∧
    (simpleInstance 6 false true false).adaptive_digital_controller_.isSome = false ∧
    (simpleInstance 6 false true false).input_volume_controller_.isSome = true ∧
    inUnitRange (F32.fin 1) = true ∧
    (Process (simpleInstance 6 false true false) (some (F32.fin 1)) false
        [F32.fin 1]).result = Except.error Fatal.adaptive_digital_controller_present ∧
    (Process (simpleInstance 6 false true false) (some (F32.fin 1)) false
        [F32.fin 1]).kinds.count CallKind.ivc_Process = 0 ∧
    (Process (simpleInstance 6 false true false) (some (F32.fin 1)) true
        [F32.fin 1]).result = Except.error Fatal.adaptive_digital_controller_present ∧
    (Process (simpleInstance 6 false true false) (some (F32.fin 1)) true
        [F32.fin 1]).kinds =
      [CallKind.dumper_DumpRaw_applied_input_volume_changed,
        CallKind.dumper_DumpRaw_speech_probability] :=
  ⟨by decide, rfl, rfl, rfl, by decide, rfl, by decide, rfl, by decide⟩

end webrtc

namespace webrtc

open GainController2

/-! ## Missing speech probability -/

/-- C11: on an instance without internal voice activity detector, `Process`
called without a speech probability stops on an assertion exactly when the
input volume controller or the adaptive digital controller is present; when it
stops, neither controller's `Process` has been called, and when both are absent
the call returns. -/
theorem Process_without_probability {C : Collaborators} (self : GainController2 C)
    (b : Bool) (audio : C.Frame) (hvad : self.vad_ = none) :
    ((∃ e : Fatal, (Process self none b audio).result = Except.error e) ↔
      (self.input_volume_controller_.isSome = true ∨
        self.adaptive_digital_controller_.isSome = true)) ∧
    ((Process self none b audio).completes = false →
      (Process self none b audio).kinds.count CallKind.ivc_Process = 0 ∧
      (Process self none b audio).kinds.count CallKind.adaptive_Process = 0) ∧
    (self.input_volume_controller_.isSome = false →
      self.adaptive_digital_controller_.isSome = false →
      (Process self none b audio).completes = true) := by
  rw [← Exec.completes_eq_false_iff, Process_kinds_eq, Process_completes_eq, hvad]
  simp only [Option.map_none', Option.isSome_none]
  generalize self.adaptive_digital_controller_.isSome = ad
  generalize self.input_volume_controller_.isSome = ivc
  generalize decide (self.calls_since_last_limiter_log_ + 1 = kLogLimiterStatsPeriodNumFrames) = e
  revert ad ivc e b
  decide

theorem Process_without_probability_witness :
    (simpleInstance 6 true true false).vad_ = none ∧
    (Process (simpleInstance 6 true true false) none true [F32.fin 1]).completes = false ∧
    (Process (simpleInstance 6 true true false) none true [F32.fin 1]).kinds.count
      CallKind.ivc_Process = 0 ∧
    (Process (simpleInstance 6 true true false) none true [F32.fin 1]).kinds.count
      CallKind.adaptive_Process = 0 :=
  ⟨rfl, by decide,
    ((Process_without_probability (simpleInstance 6 true true false) true [F32.fin 1]
      rfl).2.1 (by decide)).1,
    ((Process_without_probability (simpleInstance 6 true true false) true [F32.fin 1]
      rfl).2.1 (by decide)).2⟩

/-! ## The applied input volume -/

/-- C12: for every instance, buffer and integer `v`, `Analyze v buffer` stops
on an assertion exactly when `v < 0` or `v > 255`, and then no call has been
made: the input volume controller has received neither the volume nor the
buffer. -/
theorem Analyze_aborts_iff {C : Collaborators} (self : GainController2 C) (v : Int)
    (audio_buffer : C.Frame) :
    ((∃ e : Fatal, (Analyze self v audio_buffer).result = Except.error e) ↔
      (v < 0 ∨ 255 < v)) ∧
    ((Analyze self v audio_buffer).completes = false ↔ (v < 0 ∨ 255 < v)) ∧
    ((v < 0 ∨ 255 < v) → (Analyze self v audio_buffer).calls = []) := by
  rw [← Exec.completes_eq_false_iff, Analyze_eq]
  by_cases h0 : v < 0
  · simp [h0, Exec.completes]
  · by_cases h1 : 255 < v
    · simp [h0, h1, Exec.completes]
    · simp only [h0, h1, if_false, or_self, iff_false, false_implies, and_true]
      cases self.input_volume_controller_ <;> simp [Exec.completes]

theorem Analyze_aborts_iff_witness :
    (Analyze (simpleInstance 6 true true false) 256 [F32.fin 1]).completes = false ∧
    (Analyze (simpleInstance 6 true true false) 256 [F32.fin 1]).calls = [] ∧
    (Analyze (simpleInstance 6 true true false) (-1) [F32.fin 1]).completes = false ∧
    (Analyze (simpleInstance 6 true true false) 255 [F32.fin 1]).completes = true :=
  ⟨by decide,
    (Analyze_aborts_iff (simpleInstance 6 true true false) 256 [F32.fin 1]).2.2
      (Or.inr (by decide)),
    by decide, by decide⟩

/-- C13: on an instance without input volume controller, `Analyze` with a
volume in `[0, 255]` and `SetCaptureOutputUsed` make no call and return the
instance as it was.  On an instance with an input volume controller, `Analyze`
calls `set_stream_analog_level` with the volume and then `AnalyzePreProcess`
with the buffer, `SetCaptureOutputUsed` calls `HandleCaptureOutputUsedChange`
with the flag, and the instance returned differs from the one before in the
input volume controller only. -/
theorem Analyze_SetCaptureOutputUsed_effect {C : Collaborators} (self : GainController2 C)
    (v : Int) (audio_buffer : C.Frame) (b : Bool) (h0 : 0 ≤ v) (h255 : v ≤ 255) :
    (self.input_volume_controller_ = none →
      Analyze self v audio_buffer = ⟨[], Except.ok self⟩ ∧
      SetCaptureOutputUsed self b = ⟨[], Except.ok self⟩) ∧
    (∀ ivc : C.InputVolumeController, self.input_volume_controller_ = some ivc →
      Analyze self v audio_buffer =
        ⟨[Call.ivc_set_stream_analog_level v, Call.ivc_AnalyzePreProcess audio_buffer],
          Except.ok { self with
            input_volume_controller_ :=
              some (C.ivc_AnalyzePreProcess (C.ivc_set_stream_analog_level ivc v)
                audio_buffer) }⟩ ∧
      SetCaptureOutputUsed self b =
        ⟨[Call.ivc_HandleCaptureOutputUsedChange b],
          Except.ok { self with
            input_volume_controller_ :=
              some (C.ivc_HandleCaptureOutputUsedChange ivc b) }⟩) := by
  rw [Analyze_eq, SetCaptureOutputUsed_eq, if_neg (by omega), if_neg (by omega)]
  constructor
  · intro h
    rw [h]
    exact ⟨rfl, rfl⟩
  · intro ivc h
    rw [h]
    exact ⟨rfl, rfl⟩

theorem Analyze_SetCaptureOutputUsed_effect_witness :
    (0 : Int) ≤ 100 ∧ (100 : Int) ≤ 255 ∧
    (simpleInstance 6 true false false).input_volume_controller_ = none ∧
    Analyze (simpleInstance 6 true false false) 100 [F32.fin 1] =
      ⟨[], Except.ok (simpleInstance 6 true false false)⟩ ∧
    SetCaptureOutputUsed (simpleInstance 6 true false false) false =
      ⟨[], Except.ok (simpleInstance 6 true false false)⟩ :=
  ⟨by decide, by decide, rfl,
    ((Analyze_SetCaptureOutputUsed_effect (simpleInstance 6 true false false) 100
      [F32.fin 1] false (by decide) (by decide)).1 rfl).1,
    ((Analyze_SetCaptureOutputUsed_effect (simpleInstance 6 true false false) 100
      [F32.fin 1] false (by decide) (by decide)).1 rfl).2⟩

end webrtc

namespace webrtc

open GainController2

/-! ## The fixed gain alone -/

namespace GainController2

theorem processAll_shape {C : Collaborators} (inputs : List (ProcessArgs C)) :
    ∀ (self s : GainController2 C), (processAll self inputs).result = Except.ok s →
      SameShape s self := by
  induction inputs with
  | nil =>
    intro self s h
    cases h
    exact ⟨rfl, rfl, rfl, rfl, rfl, rfl⟩
  | cons a rest ih =>
    intro self s h
    obtain ⟨r, hr, h2⟩ := Exec.andThen_result_ok (show (Exec.andThen
      (Process self a.speech_probability a.input_volume_changed a.audio)
      fun r => processAll r.1 rest).result = Except.ok s from h)
    obtain ⟨g1, g2, g3, g4, g5, g6, -, -⟩ := Process_frame self _ _ _ r hr
    exact (ih r.1 s h2).trans ⟨g1, g2, g3, g4, g5, g6⟩

theorem Process_plain {C : Collaborators} (self : GainController2 C) (p : Option F32)
    (b : Bool) (frame : C.Frame)
    (had : self.adaptive_digital_controller_ = none)
    (hivc : self.input_volume_controller_ = none) (hvad : self.vad_ = none)
    (hp : ∀ x, p = some x → inUnitRange x = true) :
    Process self p b frame =
      ⟨Call.dumper_DumpRaw_applied_input_volume_changed b ::
          ((match p with
            | some x => [Call.dumper_DumpRaw_speech_probability x]
            | none => []) ++
          ([Call.applier_ApplyGain frame,
            Call.limiter_Process (self.fixed_gain_applier_.ApplyGain C frame)] ++
          (if self.calls_since_last_limiter_log_ + 1 = kLogLimiterStatsPeriodNumFrames then
            [Call.limiter_GetGainCurveStats,
              Call.log_limiter_stats (C.limiter_GetGainCurveStats
                (C.limiter_Process self.limiter_
                  (self.fixed_gain_applier_.ApplyGain C frame)).1)]
          else []))),
        Except.ok ({ self with
            limiter_ :=
              (C.limiter_Process self.limiter_ (self.fixed_gain_applier_.ApplyGain C frame)).1
            calls_since_last_limiter_log_ :=
              if self.calls_since_last_limiter_log_ + 1 = kLogLimiterStatsPeriodNumFrames then 0
              else self.calls_since_last_limiter_log_ + 1 },
          (C.limiter_Process self.limiter_ (self.fixed_gain_applier_.ApplyGain C frame)).2)⟩ := by
  obtain ⟨cpu, dd, app, ad, ivc, vad, lim, cnt⟩ := self
  cases had
  cases hivc
  cases hvad
  rw [Process_eq_blocks]
  rcases p with _ | x
  · cases b <;>
      simp [notifyBlock_eq, probabilityBlock_eq, volumeBlock_eq, adaptiveBlock_eq,
        outputBlock_eq]
  · have hx := hp x rfl
    simp only [inUnitRange, Bool.and_eq_true] at hx
    cases b <;>
      simp [notifyBlock_eq, probabilityBlock_eq, volumeBlock_eq, adaptiveBlock_eq,
        outputBlock_eq, hx.1, hx.2]

end GainController2

/-- The rational predicate `IsDbRatio` says what it is meant to say over the
reals: the factor is positive and the real number `10^(db/20)` lies between the
factor times `1 - 2^-20` and the factor times `1 + 2^-20`. -/
theorem IsDbRatio_iff_rpow (db factor : ℚ) :
    IsDbRatio db factor ↔
      0 < factor ∧
      (factor : ℝ) * (1 - 1 / 2 ^ 20) ≤ (10 : ℝ) ^ ((db : ℝ) / 20) ∧
      (10 : ℝ) ^ ((db : ℝ) / 20) ≤ (factor : ℝ) * (1 + 1 / 2 ^ 20) := by
  have hN : 20 * db.den ≠ 0 := by
    have := db.den_pos
    omega
  have hT0 : (0 : ℝ) ≤ (10 : ℝ) ^ ((db : ℝ) / 20) := Real.rpow_nonneg (by norm_num) _
  have hm : (0 : ℝ) < 10 ^ (-db.num).toNat := by positivity
  have hT : ((10 : ℝ) ^ ((db : ℝ) / 20)) ^ (20 * db.den) * 10 ^ (-db.num).toNat =
      10 ^ db.num.toNat := by
    rw [← Real.rpow_natCast, ← Real.rpow_mul (by norm_num)]
    have hx : (db : ℝ) / 20 * ((20 * db.den : ℕ) : ℝ) = (db.num : ℝ) := by
      have hd : (db.den : ℝ) ≠ 0 := by exact_mod_cast db.den_ne_zero
      rw [Rat.cast_def db]
      push_cast
      field_simp
      exact Or.inl (mul_comm _ _)
    rw [hx]
    have hn : (db.num : ℝ) = ((db.num.toNat : ℕ) : ℝ) - (((-db.num).toNat : ℕ) : ℝ) := by
      have := Int.toNat_sub_toNat_neg db.num
      exact_mod_cast this.symm
    rw [hn, Real.rpow_sub (by norm_num), Real.rpow_natCast, Real.rpow_natCast]
    field_simp
  have hlo : (factor * (1 - 1 / 2 ^ 20)) ^ (20 * db.den) * 10 ^ (-db.num).toNat ≤
        (10 : ℚ) ^ db.num.toNat ↔
      ((factor : ℝ) * (1 - 1 / 2 ^ 20)) ^ (20 * db.den) * 10 ^ (-db.num).toNat ≤
        (10 : ℝ) ^ db.num.toNat := by
    have h : (((factor * (1 - 1 / 2 ^ 20)) ^ (20 * db.den) * 10 ^ (-db.num).toNat : ℚ) : ℝ) ≤
          ((10 ^ db.num.toNat : ℚ) : ℝ) ↔
        (factor * (1 - 1 / 2 ^ 20)) ^ (20 * db.den) * 10 ^ (-db.num).toNat ≤
          (10 : ℚ) ^ db.num.toNat := Rat.cast_le
    rw [← h]
    push_cast
    rfl
  have hhi : (10 : ℚ) ^ db.num.toNat ≤
        (factor * (1 + 1 / 2 ^ 20)) ^ (20 * db.den) * 10 ^ (-db.num).toNat ↔
      (10 : ℝ) ^ db.num.toNat ≤
        ((factor : ℝ) * (1 + 1 / 2 ^ 20)) ^ (20 * db.den) * 10 ^ (-db.num).toNat := by
    have h : ((10 ^ db.num.toNat : ℚ) : ℝ) ≤
          (((factor * (1 + 1 / 2 ^ 20)) ^ (20 * db.den) * 10 ^ (-db.num).toNat : ℚ) : ℝ) ↔
        (10 : ℚ) ^ db.num.toNat ≤
          (factor * (1 + 1 / 2 ^ 20)) ^ (20 * db.den) * 10 ^ (-db.num).toNat := Rat.cast_le
    rw [← h]
    push_cast
    rfl
  unfold IsDbRatio
  rw [hlo, hhi, ← hT]
  refine and_congr_right fun hpos => ?_
  have hfac : (0 : ℝ) < factor := by exact_mod_cast hpos
  rw [mul_le_mul_right hm, mul_le_mul_right hm,
    pow_le_pow_iff_left₀ (by positivity) hT0 hN, pow_le_pow_iff_left₀ hT0 (by positivity) hN]

/-- C14: on an instance constructed from a valid configuration with the
adaptive digital controller and the input volume controller disabled and the
fixed gain `db` dB, after any number of calls of `Process` that returned, a call
of `Process` without speech probability or with one in `[0, 1]` returns, and
the frame it leaves is the limiter's output on the frame in which every sample
has been multiplied by `DbToRatio db`.  Apart from the dumps of the flag and of
the probability and the periodic log of the limiter statistics, the calls are
`ApplyGain` on the frame as passed and the limiter's `Process` on the
multiplied frame, so nothing else touches the frame.  The multiplied frame is
the one frame whose samples are, channel by channel and sample by sample, the
samples passed times the factor, and the factor is `10^(db/20)` as a real
number up to the relative error `2^-20` of single precision, when the decimal
power of the environment is that precise at `db`. -/
theorem Process_fixed_gain_only (C : Collaborators) (instance_count : Int)
    (config : Agc2Config) (input_volume_controller_config : C.InputVolumeControllerConfig)
    (sample_rate_hz num_channels : Int) (use_internal_vad : Bool)
    (fresh s : GainController2 C) (inputs : List (ProcessArgs C))
    (p : Option F32) (b : Bool) (frame : C.Frame) (db : ℚ)
    (hvalid : Validate config = true)
    (had : config.adaptive_digital.enabled = false)
    (hivc : config.input_volume_controller.enabled = false)
    (hdb : config.fixed_digital.gain_db = F32.fin db)
    (hpow : IsDbRatio db (C.pow10 db))
    (hfresh : (create C instance_count config input_volume_controller_config sample_rate_hz
      num_channels use_internal_vad).result = Except.ok fresh)
    (hs : (processAll fresh inputs).result = Except.ok s)
    (hp : ∀ x, p = some x → inUnitRange x = true) :
    (∃ s' : GainController2 C,
      (Process s p b frame).result =
        Except.ok (s', (C.limiter_Process s.limiter_
          (C.mapSamples (F32.mul (DbToRatio C.pow10 config.fixed_digital.gain_db)) frame)).2)) ∧
    (Process s p b frame).calls.filter
        (fun c => decide (c.kind ≠ CallKind.dumper_DumpRaw_applied_input_volume_changed ∧
          c.kind ≠ CallKind.dumper_DumpRaw_speech_probability ∧
          c.kind ≠ CallKind.limiter_GetGainCurveStats ∧
          c.kind ≠ CallKind.log_limiter_stats)) =
      [Call.applier_ApplyGain frame,
        Call.limiter_Process
          (C.mapSamples (F32.mul (DbToRatio C.pow10 config.fixed_digital.gain_db)) frame)] ∧
    (∀ gained : C.Frame,
      C.channels gained =
          (C.channels frame).map
            (List.map (F32.mul (DbToRatio C.pow10 config.fixed_digital.gain_db))) ↔
        gained =
          C.mapSamples (F32.mul (DbToRatio C.pow10 config.fixed_digital.gain_db)) frame) ∧
    DbToRatio C.pow10 config.fixed_digital.gain_db = F32.fin (C.pow10 db) ∧
    (C.pow10 db : ℝ) * (1 - 1 / 2 ^ 20) ≤ (10 : ℝ) ^ ((db : ℝ) / 20) ∧
    (10 : ℝ) ^ ((db : ℝ) / 20) ≤ (C.pow10 db : ℝ) * (1 + 1 / 2 ^ 20) := by
  have hfactor : DbToRatio C.pow10 config.fixed_digital.gain_db = F32.fin (C.pow10 db) := by
    have hv := hvalid
    simp only [Validate, Bool.and_eq_true] at hv
    have h50 := hv.1.1.1.1.1.2
    rw [hdb] at h50 ⊢
    have hlt : db < 50 := by simpa [F32.lt] using h50
    have h771 : ¬ (771 : ℚ) ≤ db := by linarith
    simp [DbToRatio, h771]
  rw [create_eq_of_valid C _ _ _ _ _ _ hvalid] at hfresh
  cases hfresh
  obtain ⟨g1, g2, g3, g4, -, -⟩ := processAll_shape inputs _ s hs
  simp only [had, hivc, Bool.false_eq_true, if_false, Option.isSome_none,
    Bool.false_and] at g1 g2 g3 g4
  have h1 : s.adaptive_digital_controller_ = none := by
    cases hx : s.adaptive_digital_controller_ with
    | none => rfl
    | some v => simp [hx] at g1
  have h2 : s.input_volume_controller_ = none := by
    cases hx : s.input_volume_controller_ with
    | none => rfl
    | some v => simp [hx] at g2
  have h3 : s.vad_ = none := by
    cases hx : s.vad_ with
    | none => rfl
    | some v => simp [hx] at g3
  rw [Process_plain s p b frame h1 h2 h3 hp, g4]
  refine ⟨⟨_, rfl⟩, ?_,
    fun gained => ⟨fun h => C.channels_injective _ _ (h.trans (C.channels_mapSamples _ _).symm),
      fun h => h ▸ C.channels_mapSamples _ _⟩,
    hfactor, ((IsDbRatio_iff_rpow db (C.pow10 db)).1 hpow).2⟩
  rcases p with _ | x <;>
    by_cases hc : s.calls_since_last_limiter_log_ + 1 = kLogLimiterStatsPeriodNumFrames <;>
    simp [Call.kind, hc, GainApplier.ApplyGain]

theorem sixDbEnv_pow10_isDbRatio : IsDbRatio 6 (sixDbEnv.pow10 6) := by
  have h1 : (6 : ℤ).toNat = 6 := rfl
  have h2 : (-6 : ℤ).toNat = 0 := rfl
  show IsDbRatio 6 (pow10AtSixDb 6)
  norm_num [IsDbRatio, pow10AtSixDb, Rat.mkRat_eq_div, h1, h2]

theorem sixDbEnv_scaled_half :
    (sixDbEnv.limiter_Process sixDbInstance.limiter_
      (sixDbEnv.mapSamples
        (F32.mul (DbToRatio sixDbEnv.pow10 (sampleConfig 6 false false).fixed_digital.gain_db))
        (List.replicate 480 (F32.fin (mkRat 1 2))))).2 =
      (List.replicate 480 (F32.fin (mkRat 8368737 8388608)) : List F32) := by
  have h : (List.replicate 480 (F32.fin (mkRat 1 2))).map
      (F32.mul (DbToRatio pow10AtSixDb (F32.fin 6))) =
      List.replicate 480 (F32.fin (mkRat 8368737 8388608)) := by
    rw [List.map_replicate]
    exact congrArg (List.replicate 480) (by decide)
  exact h

theorem Process_fixed_gain_only_witness :
    Validate (sampleConfig 6 false false) = true ∧
    (create sixDbEnv 0 (sampleConfig 6 false false) () 48000 1 false).result =
      Except.ok sixDbInstance ∧
    IsDbRatio 6 (sixDbEnv.pow10 6) ∧
    sixDbEnv.channels (List.replicate 480 (F32.fin (mkRat 1 2))) =
      [List.replicate 480 (F32.fin (mkRat 1 2))] ∧
    DbToRatio sixDbEnv.pow10 (F32.fin 6) = F32.fin (mkRat 8368737 4194304) ∧
    (∃ s' : GainController2 sixDbEnv,
      (Process sixDbInstance none false (List.replicate 480 (F32.fin (mkRat 1 2)))).result =
        Except.ok (s', List.replicate 480 (F32.fin (mkRat 8368737 8388608)))) ∧
    ((sixDbEnv.pow10 6 : ℚ) : ℝ) * (1 - 1 / 2 ^ 20) ≤ (10 : ℝ) ^ (((6 : ℚ) : ℝ) / 20) ∧
    (10 : ℝ) ^ (((6 : ℚ) : ℝ) / 20) ≤ ((sixDbEnv.pow10 6 : ℚ) : ℝ) * (1 + 1 / 2 ^ 20) :=
  ⟨by decide, rfl, sixDbEnv_pow10_isDbRatio, rfl, by decide,
    (Process_fixed_gain_only sixDbEnv 0 (sampleConfig 6 false false) () 48000 1 false
      sixDbInstance sixDbInstance [] none false (List.replicate 480 (F32.fin (mkRat 1 2))) 6
      (by decide) rfl rfl rfl sixDbEnv_pow10_isDbRatio rfl rfl (fun _ h => nomatch h)).1.imp
      fun s' h => h.trans (congrArg (fun f => Except.ok (s', f)) sixDbEnv_scaled_half),
    (Process_fixed_gain_only sixDbEnv 0 (sampleConfig 6 false false) () 48000 1 false
      sixDbInstance sixDbInstance [] none false (List.replicate 480 (F32.fin (mkRat 1 2))) 6
      (by decide) rfl rfl rfl sixDbEnv_pow10_isDbRatio rfl rfl
      (fun _ h => nomatch h)).2.2.2.2⟩

end webrtc

namespace webrtc

open GainController2

/-! ## The speech probability in use -/

namespace GainController2

theorem mem_calls_andThen {C : Collaborators} {α β : Type} {m : Exec C α}
    {f : α → Exec C β} {c : Call C} (h : c ∈ (Exec.andThen m f).calls) :
    c ∈ m.calls ∨ ∃ a, m.result = Except.ok a ∧ c ∈ (f a).calls := by
  obtain ⟨cs, r⟩ := m
  cases r with
  | error e => exact Or.inl h
  | ok a =>
    rcases List.mem_append.1 h with h1 | h2
    · exact Or.inl h1
    · exact Or.inr ⟨a, rfl, h2⟩

theorem notifyBlock_handed {C : Collaborators} (self : GainController2 C) (b : Bool) :
    (∀ c ∈ (notifyBlock self b).calls, c.handedProbability = none) ∧
    (∀ s, (notifyBlock self b).result = Except.ok s → s.vad_ = self.vad_) := by
  rw [notifyBlock_eq]
  cases b <;> cases self.adaptive_digital_controller_ <;>
    refine ⟨?_, fun s hs => ?_⟩ <;>
    first | (cases hs; rfl) | simp [Call.handedProbability]

theorem probabilityBlock_handed {C : Collaborators} (self : GainController2 C)
    (p : Option F32) (frame : C.Frame) :
    (∀ c ∈ (probabilityBlock self p frame).calls, c.handedProbability = none) ∧
    (∀ s, (probabilityBlock self p frame).result = Except.ok s →
      s.2 = (match self.vad_ with
        | some vad => some (C.vad_Analyze vad frame).2
        | none => p)) := by
  rw [probabilityBlock_eq]
  cases self.vad_ <;> rcases p with _ | x <;> dsimp only <;>
    (try (cases F32.ge x (F32.fin 0) <;> cases F32.le x (F32.fin 1) <;> dsimp only)) <;>
    refine ⟨?_, fun s hs => ?_⟩ <;>
    first | (cases hs; rfl) | cases hs | simp [Call.handedProbability]

theorem volumeBlock_handed {C : Collaborators} (self : GainController2 C) (p : Option F32) :
    ∀ c ∈ (volumeBlock self p).calls, ∀ q : F32,
      c.handedProbability = some q → p = some q := by
  rw [volumeBlock_eq]
  cases self.input_volume_controller_ <;> cases self.adaptive_digital_controller_ <;>
    cases p <;> simp [Call.handedProbability]

theorem adaptiveBlock_handed {C : Collaborators} (self : GainController2 C)
    (p : Option F32) (frame : C.Frame) :
    ∀ c ∈ (adaptiveBlock self p frame).calls, ∀ q : F32,
      c.handedProbability = some q → p = some q := by
  rw [adaptiveBlock_eq]
  cases self.adaptive_digital_controller_ <;> cases p <;> simp [Call.handedProbability]

theorem outputBlock_handed {C : Collaborators} (self : GainController2 C) (frame : C.Frame) :
    ∀ c ∈ (outputBlock self frame).calls, c.handedProbability = none := by
  rw [outputBlock_eq]
  by_cases hc : self.calls_since_last_limiter_log_ + 1 = kLogLimiterStatsPeriodNumFrames <;>
    simp [Call.handedProbability, hc]

theorem Process_handed {C : Collaborators} (self : GainController2 C) (p : Option F32)
    (b : Bool) (audio : C.Frame) :
    ∀ c ∈ (Process self p b audio).calls, ∀ q : F32, c.handedProbability = some q →
      some q = (match self.vad_ with
        | some vad => some (C.vad_Analyze vad audio).2
        | none => p) := by
  intro c hc q hq
  rw [Process_eq_blocks] at hc
  rcases mem_calls_andThen hc with h | ⟨s1, h1, hc⟩
  · rw [(notifyBlock_handed self b).1 c h] at hq
    cases hq
  rcases mem_calls_andThen hc with h | ⟨sp, h2, hc⟩
  · rw [(probabilityBlock_handed s1 p audio).1 c h] at hq
    cases hq
  have hsp := (probabilityBlock_handed s1 p audio).2 sp h2
  rw [(notifyBlock_handed self b).2 s1 h1] at hsp
  rw [← hsp]
  rcases mem_calls_andThen hc with h | ⟨s3, -, hc⟩
  · exact (volumeBlock_handed sp.1 sp.2 c h q hq).symm
  rcases mem_calls_andThen hc with h | ⟨sf, -, hc⟩
  · exact (adaptiveBlock_handed s3 sp.2 audio c h q hq).symm
  · rw [outputBlock_handed sf.1 sf.2 c hc] at hq
    cases hq

theorem Process_vad_ignores {C : Collaborators} (self : GainController2 C) (p p' : Option F32)
    (b : Bool) (audio : C.Frame) (vad : C.VoiceActivityDetectorWrapper)
    (hvad : self.vad_ = some vad) :
    Process self p' b audio = Process self p b audio := by
  obtain ⟨cpu, dd, app, ad, ivc, v, lim, cnt⟩ := self
  cases hvad
  rw [Process_eq_blocks, Process_eq_blocks]
  cases ad <;> cases b <;> simp [notifyBlock_eq, probabilityBlock_eq]

theorem Process_out_of_range {C : Collaborators} (self : GainController2 C)
    (x : F32) (b : Bool) (audio : C.Frame) (hvad : self.vad_ = none)
    (hx : inUnitRange x = false) :
    (Process self (some x) b audio).result = Except.error Fatal.speech_probability_ge_0 ∨
    (Process self (some x) b audio).result = Except.error Fatal.speech_probability_le_1 := by
  obtain ⟨cpu, dd, app, ad, ivc, v, lim, cnt⟩ := self
  cases hvad
  rw [Process_eq_blocks]
  cases hge : F32.ge x (F32.fin 0) <;> cases hle : F32.le x (F32.fin 1) <;>
    simp [inUnitRange, hge, hle] at hx <;>
    cases ad <;> cases b <;>
    simp [notifyBlock_eq, probabilityBlock_eq, hge, hle]

end GainController2

/-- C15: in a call of `Process` on an instance with a voice activity detector,
every probability handed to the `Process` of the input volume controller or of
the adaptive digital controller is the detector's result on the frame passed;
the caller's value is not looked at (the whole run is the same for every
caller-supplied value, absent, in range or not), and with the adaptive digital
controller present, as it is whenever the constructor creates the detector,
the call returns.  On an instance without detector, every probability handed
to either controller is the caller-supplied value, and the call stops on one
of the two range assertions when that value is present and not in `[0, 1]`.
In a call that returns, each controller that is present is handed a
probability exactly once. -/
theorem Process_effective_probability {C : Collaborators} (self : GainController2 C)
    (p : Option F32) (b : Bool) (audio : C.Frame) :
    (∀ vad : C.VoiceActivityDetectorWrapper, self.vad_ = some vad →
      (∀ c ∈ (Process self p b audio).calls, ∀ q : F32,
        c.handedProbability = some q → q = (C.vad_Analyze vad audio).2) ∧
      (∀ p' : Option F32, Process self p' b audio = Process self p b audio) ∧
      (self.adaptive_digital_controller_.isSome = true →
        (Process self p b audio).completes = true)) ∧
    (self.vad_ = none →
      (∀ c ∈ (Process self p b audio).calls, ∀ q : F32,
        c.handedProbability = some q → p = some q) ∧
      (∀ x : F32, p = some x → inUnitRange x = false →
        (Process self p b audio).result = Except.error Fatal.speech_probability_ge_0 ∨
        (Process self p b audio).result = Except.error Fatal.speech_probability_le_1)) ∧
    ((Process self p b audio).completes = true →
      (Process self p b audio).kinds.count CallKind.ivc_Process =
        (if self.input_volume_controller_.isSome = true then 1 else 0) ∧
      (Process self p b audio).kinds.count CallKind.adaptive_Process =
        (if self.adaptive_digital_controller_.isSome = true then 1 else 0)) := by
  refine ⟨?_, ?_, ?_⟩
  · intro vad hvad
    refine ⟨fun c hc q hq => ?_,
      fun p' => Process_vad_ignores self p p' b audio vad hvad, ?_⟩
    · have h := Process_handed self p b audio c hc q hq
      rw [hvad] at h
      exact Option.some.inj h
    intro had
    rw [Process_completes_eq, hvad, had]
    cases self.input_volume_controller_.isSome <;> cases Option.map inUnitRange p <;> rfl
  · intro hvad
    refine ⟨fun c hc q hq => ?_, ?_⟩
    · have h := Process_handed self p b audio c hc q hq
      rw [hvad] at h
      exact h.symm
    intro x hp hx
    rw [hp]
    exact Process_out_of_range self x b audio hvad hx
  · rw [Process_kinds_eq, Process_completes_eq]
    generalize self.adaptive_digital_controller_.isSome = ad
    generalize self.input_volume_controller_.isSome = ivc
    generalize self.vad_.isSome = vad
    generalize Option.map inUnitRange p = q
    generalize decide (self.calls_since_last_limiter_log_ + 1 = kLogLimiterStatsPeriodNumFrames) = e
    revert ad ivc vad q e b
    decide

theorem Process_effective_probability_witness :
    (simpleInstance 6 true true true).vad_ = some (0 : Nat) ∧
    (simpleInstance 6 true true true).adaptive_digital_controller_.isSome = true ∧
    (Process (simpleInstance 6 true true true) (some (F32.fin 7)) true
      [F32.fin 1]).completes = true ∧
    (simpleInstance 6 true true false).vad_ = none ∧
    inUnitRange (F32.fin 7) = false ∧
    ((Process (simpleInstance 6 true true false) (some (F32.fin 7)) true
        [F32.fin 1]).result = Except.error Fatal.speech_probability_ge_0 ∨
      (Process (simpleInstance 6 true true false) (some (F32.fin 7)) true
        [F32.fin 1]).result = Except.error Fatal.speech_probability_le_1) :=
  ⟨rfl, rfl,
    ((Process_effective_probability (simpleInstance 6 true true true) (some (F32.fin 7)) true
      [F32.fin 1]).1 (0 : Nat) rfl).2.2 rfl,
    rfl, by decide,
    ((Process_effective_probability (simpleInstance 6 true true false) (some (F32.fin 7)) true
      [F32.fin 1]).2.1 rfl).2 (F32.fin 7) rfl (by decide)⟩

end webrtc

namespace webrtc

open GainController2

/-! ## The complete order of the calls -/

/-- C16: on an instance with the adaptive digital controller, the input volume
controller and the voice activity detector all present, a call of `Process`
with `input_volume_changed` true returns, whatever speech probability the
caller passes.  Its calls to the seven member functions named below are, in
this order and once each: the adaptive controller's `HandleInputGainChange`,
the detector's `Analyze` on the frame passed, the adaptive controller's
`GetSpeechLevelDbfsIfConfident`, the input volume controller's `Process` with
the detector's probability and that speech level, the adaptive controller's
`Process` with the frame passed, the detector's probability and the limiter's
`LastAudioLevel`, the fixed gain applier's `ApplyGain` on the frame the
adaptive controller left, the limiter's `Process` on the frame with the fixed
gain applied.  The speech level is the one of the adaptive controller as
notified and not yet run on this frame, the limiter level the one of the
limiter not yet run on this frame.  The complete list of calls has in addition
the two dumps, the read of `LastAudioLevel` and, when the frame counter
reaches the period, the read and the log of the limiter statistics. -/
theorem Process_call_order {C : Collaborators} (self : GainController2 C)
    (adaptive : C.AdaptiveDigitalGainController) (ivc : C.InputVolumeController)
    (vad : C.VoiceActivityDetectorWrapper) (p : Option F32) (audio : C.Frame)
    (hadaptive : self.adaptive_digital_controller_ = some adaptive)
    (hivc : self.input_volume_controller_ = some ivc)
    (hvad : self.vad_ = some vad) :
    (Process self p true audio).completes = true ∧
    (Process self p true audio).calls.filter
        (fun c => decide (c.kind = CallKind.adaptive_HandleInputGainChange ∨
          c.kind = CallKind.vad_Analyze ∨
          c.kind = CallKind.adaptive_GetSpeechLevelDbfsIfConfident ∨
          c.kind = CallKind.ivc_Process ∨ c.kind = CallKind.adaptive_Process ∨
          c.kind = CallKind.applier_ApplyGain ∨ c.kind = CallKind.limiter_Process)) =
      [Call.adaptive_HandleInputGainChange,
        Call.vad_Analyze audio,
        Call.adaptive_GetSpeechLevelDbfsIfConfident,
        Call.ivc_Process (C.vad_Analyze vad audio).2
          (C.adaptive_GetSpeechLevelDbfsIfConfident (C.adaptive_HandleInputGainChange adaptive)),
        Call.adaptive_Process audio (C.vad_Analyze vad audio).2
          (C.limiter_LastAudioLevel self.limiter_),
        Call.applier_ApplyGain
          (C.adaptive_Process (C.adaptive_HandleInputGainChange adaptive) audio
            (C.vad_Analyze vad audio).2 (C.limiter_LastAudioLevel self.limiter_)).2,
        Call.limiter_Process (self.fixed_gain_applier_.ApplyGain C
          (C.adaptive_Process (C.adaptive_HandleInputGainChange adaptive) audio
            (C.vad_Analyze vad audio).2 (C.limiter_LastAudioLevel self.limiter_)).2)] ∧
    (Process self p true audio).kinds =
      [CallKind.dumper_DumpRaw_applied_input_volume_changed,
        CallKind.adaptive_HandleInputGainChange,
        CallKind.vad_Analyze,
        CallKind.dumper_DumpRaw_speech_probability,
        CallKind.adaptive_GetSpeechLevelDbfsIfConfident,
        CallKind.ivc_Process,
        CallKind.limiter_LastAudioLevel,
        CallKind.adaptive_Process,
        CallKind.applier_ApplyGain,
        CallKind.limiter_Process] ++
      (if self.calls_since_last_limiter_log_ + 1 = kLogLimiterStatsPeriodNumFrames then
        [CallKind.limiter_GetGainCurveStats, CallKind.log_limiter_stats]
      else []) := by
  obtain ⟨cpu, dd, app, ad, i, v, lim, cnt⟩ := self
  cases hadaptive
  cases hivc
  cases hvad
  rw [Process_eq_blocks]
  by_cases hc : cnt + 1 = kLogLimiterStatsPeriodNumFrames <;>
    simp [notifyBlock_eq, probabilityBlock_eq, volumeBlock_eq, adaptiveBlock_eq,
      outputBlock_eq, Exec.completes, Exec.kinds, Call.kind, hc]

theorem Process_call_order_witness :
    (simpleInstance 6 true true true).adaptive_digital_controller_ =
      some ((0, 0) : Nat × Nat) ∧
    (simpleInstance 6 true true true).input_volume_controller_ =
      some (⟨1, 0, true, 0, 0⟩ : SimpleVolumeController) ∧
    (simpleInstance 6 true true true).vad_ = some (0 : Nat) ∧
    (Process (simpleInstance 6 true true true) none true [F32.fin 1]).kinds =
      [CallKind.dumper_DumpRaw_applied_input_volume_changed,
        CallKind.adaptive_HandleInputGainChange,
        CallKind.vad_Analyze,
        CallKind.dumper_DumpRaw_speech_probability,
        CallKind.adaptive_GetSpeechLevelDbfsIfConfident,
        CallKind.ivc_Process,
        CallKind.limiter_LastAudioLevel,
        CallKind.adaptive_Process,
        CallKind.applier_ApplyGain,
        CallKind.limiter_Process] :=
  ⟨rfl, rfl, rfl,
    (Process_call_order (simpleInstance 6 true true true) ((0, 0) : Nat × Nat)
      (⟨1, 0, true, 0, 0⟩ : SimpleVolumeController) (0 : Nat) none [F32.fin 1]
      rfl rfl rfl).2.2.trans (by decide)⟩

/-! ## What changes the fixed gain factor -/

/-- C17: the fixed gain factor is `DbToRatio` of the configured gain in the
instance the constructor returns and `DbToRatio x` in the instance that
`SetFixedGainDb x` returns; `Analyze`, `Process`, `SetCaptureOutputUsed` and
`GetRecommendedInputVolume` return an instance with the fixed gain applier,
hence its factor, as it was; `SetFixedGainDb` returns an instance with the
frame counter and the sub-components as they were. -/
theorem fixed_gain_factor_frame {C : Collaborators} (self : GainController2 C) :
    (∀ (instance_count : Int) (config : Agc2Config)
      (input_volume_controller_config : C.InputVolumeControllerConfig)
      (sample_rate_hz num_channels : Int) (use_internal_vad : Bool),
      (create C instance_count config input_volume_controller_config sample_rate_hz
        num_channels use_internal_vad).result = Except.ok self →
      self.fixed_gain_applier_.GetGainFactor =
        DbToRatio C.pow10 config.fixed_digital.gain_db) ∧
    (∀ (x : F32) (s : GainController2 C), (SetFixedGainDb self x).result = Except.ok s →
      s.fixed_gain_applier_.GetGainFactor = DbToRatio C.pow10 x ∧
      s.calls_since_last_limiter_log_ = self.calls_since_last_limiter_log_ ∧
      s.adaptive_digital_controller_ = self.adaptive_digital_controller_ ∧
      s.input_volume_controller_ = self.input_volume_controller_ ∧
      s.vad_ = self.vad_) ∧
    (∀ (v : Int) (audio_buffer : C.Frame) (s : GainController2 C),
      (Analyze self v audio_buffer).result = Except.ok s →
      s.fixed_gain_applier_ = self.fixed_gain_applier_) ∧
    (∀ (p : Option F32) (b : Bool) (audio : C.Frame) (r : GainController2 C × C.Frame),
      (Process self p b audio).result = Except.ok r →
      r.1.fixed_gain_applier_ = self.fixed_gain_applier_) ∧
    (∀ (b : Bool) (s : GainController2 C),
      (SetCaptureOutputUsed self b).result = Except.ok s →
      s.fixed_gain_applier_ = self.fixed_gain_applier_) ∧
    (∀ r : GainController2 C × Option Int,
      (GetRecommendedInputVolume self).result = Except.ok r → r.1 = self) := by
  refine ⟨?_, ?_, ?_, ?_, ?_, ?_⟩
  · intro ic config ivcc sr ch uiv h
    exact create_gain_factor C ic config ivcc sr ch uiv self h
  · intro x s h
    refine ⟨SetFixedGainDb_gain_factor self s x h, ?_⟩
    revert h
    rw [SetFixedGainDb_eq]
    split_ifs <;> (intro h; cases h; exact ⟨rfl, rfl, rfl, rfl⟩)
  · intro v buf s h
    revert h
    rw [Analyze_eq]
    split_ifs
    · intro h; cases h
    · intro h; cases h
    · cases self.input_volume_controller_ <;> (intro h; cases h; rfl)
  · intro p b audio r h
    exact (Process_frame self p b audio r h).2.2.2.1
  · intro b s h
    revert h
    rw [SetCaptureOutputUsed_eq]
    cases self.input_volume_controller_ <;> (intro h; cases h; rfl)
  · intro r h
    revert h
    rw [GetRecommendedInputVolume_eq]
    cases self.input_volume_controller_ <;> (intro h; cases h; rfl)

theorem fixed_gain_factor_frame_witness :
    (create simpleEnv 0 (sampleConfig 6 true true) () 48000 1 true).result =
      Except.ok (simpleInstance 6 true true true) ∧
    (simpleInstance 6 true true true).fixed_gain_applier_.GetGainFactor =
      DbToRatio simpleEnv.pow10 (F32.fin 6) ∧
    (Process (simpleInstance 6 true true true) none true [F32.fin 1]).completes = true ∧
    ((Process (simpleInstance 6 true true true) none true [F32.fin 1]).valueD
      (simpleInstance 6 true true true, [])).1.fixed_gain_applier_ =
      (simpleInstance 6 true true true).fixed_gain_applier_ :=
  ⟨rfl,
    (fixed_gain_factor_frame (simpleInstance 6 true true true)).1 0 (sampleConfig 6 true true)
      () 48000 1 true rfl,
    by decide,
    (fixed_gain_factor_frame (simpleInstance 6 true true true)).2.2.2.1 none true [F32.fin 1]
      _ (Exec.result_of_completes (by decide) _)⟩

/-! ## The CPU features -/

/-- C18: whatever the probe detects and whatever the three kill switches say,
each of the three features is allowed exactly when the probe reports it and
its own kill switch is off: a kill switch never allows a feature that the
probe does not report, and the answer for a feature does not involve the kill
switches of the other two. -/
theorem GetAllowedCpuFeatures_eq (C : Collaborators) :
    GetAllowedCpuFeatures C =
      { sse2 := C.GetAvailableCpuFeatures.sse2 &&
          !C.IsEnabled "WebRTC-Agc2SimdSse2KillSwitch"
        avx2 := C.GetAvailableCpuFeatures.avx2 &&
          !C.IsEnabled "WebRTC-Agc2SimdAvx2KillSwitch"
        neon := C.GetAvailableCpuFeatures.neon &&
          !C.IsEnabled "WebRTC-Agc2SimdNeonKillSwitch" } := by
  unfold GetAllowedCpuFeatures
  cases C.IsEnabled "WebRTC-Agc2SimdSse2KillSwitch" <;>
    cases C.IsEnabled "WebRTC-Agc2SimdAvx2KillSwitch" <;>
    cases C.IsEnabled "WebRTC-Agc2SimdNeonKillSwitch" <;>
    simp

theorem GetAllowedCpuFeatures_eq_witness :
    GetAllowedCpuFeatures (cpuEnv ⟨true, true, false⟩ false true true) =
        ⟨true, false, false⟩ ∧
    GetAllowedCpuFeatures (cpuEnv ⟨true, true, true⟩ true false false) =
        ⟨false, true, true⟩ ∧
    GetAllowedCpuFeatures (cpuEnv ⟨false, false, false⟩ false false false) =
        ⟨false, false, false⟩ :=
  ⟨(GetAllowedCpuFeatures_eq (cpuEnv ⟨true, true, false⟩ false true true)).trans
      (by decide),
    (GetAllowedCpuFeatures_eq (cpuEnv ⟨true, true, true⟩ true false false)).trans
      (by decide),
    (GetAllowedCpuFeatures_eq (cpuEnv ⟨false, false, false⟩ false false false)).trans
      (by decide)⟩

end webrtc
